import Mathlib

/-!
Verification of the cartoframes bulk data transfer layer
(`cartoframes/io/context.py` and `cartoframes/data/utils.py`).

The development shallowly embeds the Python source: Python values that can
appear in a geometry column become the inductive `PyVal`, Python exceptions
become the `PyError` sum carried in `Except`, and the external collaborators
(the shapely geometry library, the CARTO transport client, pandas) are
modelled by small executable definitions whose documented contracts are the
only facts the embedded repository code relies on.
-/

namespace Cartoframes

/-! ## Decimal digits: printer and parser

Used by the model of the external shapely library to print and parse WKT
coordinates.  `digitChar`/`charDigit?` are an inverse pair on `d < 10`. -/

def digitChar (d : Nat) : Char :=
  match d with
  | 0 => '0' | 1 => '1' | 2 => '2' | 3 => '3' | 4 => '4'
  | 5 => '5' | 6 => '6' | 7 => '7' | 8 => '8' | _ => '9'

def charDigit? (c : Char) : Option Nat :=
  if 48 ≤ c.toNat ∧ c.toNat ≤ 57 then some (c.toNat - 48) else none

theorem charDigit_digitChar {d : Nat} (h : d < 10) : charDigit? (digitChar d) = some d := by
  interval_cases d <;> rfl

theorem digitChar_isSome (d : Nat) : (charDigit? (digitChar d)).isSome := by
  unfold digitChar
  split <;> rfl

/-- Big-endian decimal digits of `n` (empty for `0`). -/
def natChars (n : Nat) : List Char :=
  (Nat.digits 10 n).reverse.map digitChar

/-- Decimal text of a natural number, as printed in WKT coordinates. -/
def natStr (n : Nat) : List Char :=
  if n = 0 then ['0'] else natChars n

/-- Decimal text of an integer, as printed in WKT coordinates. -/
def intChars (i : Int) : List Char :=
  if i < 0 then '-' :: natStr i.natAbs else natStr i.natAbs

/-- Consume a maximal run of decimal digits (the `\d+` / `[0-9]+` behaviour). -/
def takeDigits : List Char → List Nat × List Char
  | [] => ([], [])
  | c :: rest =>
    match charDigit? c with
    | some d => let (ds, r) := takeDigits rest; (d :: ds, r)
    | none => ([], c :: rest)

/-- Holds iff the list does not begin with a decimal digit. -/
def noDigitHead (cs : List Char) : Prop :=
  match cs with
  | [] => True
  | c :: _ => charDigit? c = none

def parseNatFrom (cs : List Char) : Option (Nat × List Char) :=
  let (ds, r) := takeDigits cs
  if ds = [] then none else some (ds.foldl (fun a d => a * 10 + d) 0, r)

def parseIntFrom (cs : List Char) : Option (Int × List Char) :=
  if cs.head? = some '-' then
    (parseNatFrom cs.tail).map (fun p => (-(p.1 : Int), p.2))
  else
    (parseNatFrom cs).map (fun p => ((p.1 : Int), p.2))

theorem takeDigits_nodigit {cs : List Char} (h : noDigitHead cs) : takeDigits cs = ([], cs) := by
  cases cs with
  | nil => rfl
  | cons c r =>
    simp only [noDigitHead] at h
    simp [takeDigits, h]

theorem takeDigits_append (l : List Nat) (rest : List Char)
    (hl : ∀ d ∈ l, d < 10) (hr : noDigitHead rest) :
    takeDigits (l.map digitChar ++ rest) = (l, rest) := by
  induction l with
  | nil => simpa using takeDigits_nodigit hr
  | cons d ds ih =>
    have hd : d < 10 := hl d (by simp)
    have ihds := ih (fun x hx => hl x (by simp [hx]))
    simp [takeDigits, charDigit_digitChar hd, ihds]

theorem foldr_digits_eq_ofDigits (l : List Nat) :
    l.foldr (fun d a => a * 10 + d) 0 = Nat.ofDigits 10 l := by
  induction l with
  | nil => simp [Nat.ofDigits]
  | cons d ds ih =>
    simp [Nat.ofDigits_cons, ih]
    ring

theorem foldl_reverse_digits (n : Nat) :
    ((Nat.digits 10 n).reverse).foldl (fun a d => a * 10 + d) 0 = n := by
  rw [List.foldl_reverse]
  have : (Nat.digits 10 n).foldr (fun x y => y * 10 + x) 0
      = (Nat.digits 10 n).foldr (fun d a => a * 10 + d) 0 := rfl
  rw [this, foldr_digits_eq_ofDigits, Nat.ofDigits_digits]

theorem parseNatFrom_natStr (n : Nat) (rest : List Char) (hr : noDigitHead rest) :
    parseNatFrom (natStr n ++ rest) = some (n, rest) := by
  by_cases h0 : n = 0
  · subst h0
    have : takeDigits ('0' :: rest) = ([0], rest) := by
      simpa using takeDigits_append [0] rest (by simp) hr
    simp [natStr, parseNatFrom, this]
  · have hlt : ∀ d ∈ (Nat.digits 10 n).reverse, d < 10 := by
      intro d hd
      exact Nat.digits_lt_base (by norm_num) (List.mem_reverse.mp hd)
    have htd := takeDigits_append ((Nat.digits 10 n).reverse) rest hlt hr
    have hne : (Nat.digits 10 n).reverse ≠ [] := by
      simpa using Nat.digits_ne_nil_iff_ne_zero.mpr h0
    have key : natStr n = (Nat.digits 10 n).reverse.map digitChar := by
      rw [natStr, if_neg h0, natChars]
    rw [key]
    unfold parseNatFrom
    rw [htd]
    simp [hne, foldl_reverse_digits]
    rw [foldr_digits_eq_ofDigits, Nat.ofDigits_digits]

theorem natStr_ne_nil (n : Nat) : natStr n ≠ [] := by
  by_cases h0 : n = 0
  · simp [natStr, h0]
  · have : Nat.digits 10 n ≠ [] := Nat.digits_ne_nil_iff_ne_zero.mpr h0
    simp [natStr, natChars, h0, this]

theorem natStr_mem_digit {n : Nat} {c : Char} (h : c ∈ natStr n) :
    (charDigit? c).isSome := by
  by_cases h0 : n = 0
  · simp [natStr, h0] at h
    subst h
    rfl
  · simp [natStr, natChars, h0] at h
    obtain ⟨d, _, rfl⟩ := h
    exact digitChar_isSome d

theorem natStr_head_not_minus (n : Nat) (rest : List Char) :
    ((natStr n ++ rest).head? = some '-') = False := by
  rcases hcons : natStr n with _ | ⟨c, cs⟩
  · exact absurd hcons (natStr_ne_nil n)
  · have hc : c ∈ natStr n := by rw [hcons]; simp
    have := natStr_mem_digit hc
    simp only [hcons, List.cons_append, List.head?_cons, Option.some.injEq, eq_iff_iff,
      iff_false]
    intro hEq
    subst hEq
    exact absurd this (by decide)

theorem parseIntFrom_intChars (i : Int) (rest : List Char) (hr : noDigitHead rest) :
    parseIntFrom (intChars i ++ rest) = some (i, rest) := by
  by_cases hneg : i < 0
  · have habs : (-(i.natAbs : Int)) = i := by omega
    have habs2 : (-|i| : Int) = i := by
      rw [abs_of_neg hneg]; ring
    simp [intChars, hneg, parseIntFrom, parseNatFrom_natStr _ _ hr, habs, habs2]
  · have habs : ((i.natAbs : Int)) = i := by omega
    have habs2 : (|i| : Int) = i := abs_of_nonneg (by omega)
    simp only [intChars, hneg, if_false, parseIntFrom, natStr_head_not_minus, if_false]
    simp [parseNatFrom_natStr _ _ hr, habs, habs2]

/-! ## Model of the external shapely library

`cartoframes` treats shapely as an opaque collaborator: a type of canonical
in-memory geometries with a WKT printer (`geometry.wkt`), a WKT reader
(`wkt.loads`) and a WKB reader (`wkb.loads`).  The model below provides an
executable geometry type satisfying the contracts the repository code relies
on: the printer and reader are mutually inverse, WKT text starts with an
upper-case tag letter, and WKB starts with the byte-order marker `0x01`
(which is not the ASCII code of a hex digit). -/

inductive Geom where
  | point (x y : Int)
  | lineString (coords : List (Int × Int))
deriving DecidableEq, Repr

def pairChars (p : Int × Int) : List Char :=
  intChars p.1 ++ ' ' :: intChars p.2

def pairsChars : List (Int × Int) → List Char
  | [] => []
  | [p] => pairChars p
  | p :: q :: rest => pairChars p ++ ',' :: ' ' :: pairsChars (q :: rest)

def wktChars : Geom → List Char
  | .point x y => "POINT (".data ++ (intChars x ++ ' ' :: (intChars y ++ [')']))
  | .lineString [] => "LINESTRING EMPTY".data
  | .lineString (p :: rest) => "LINESTRING (".data ++ (pairsChars (p :: rest) ++ [')'])

/-- The `geometry.wkt`: the WKT text shapely prints for a geometry. -/
def wktDump (g : Geom) : String := String.mk (wktChars g)

/-- Match a literal leading pattern, returning the remainder on success. -/
def dropLead : List Char → List Char → Option (List Char)
  | [], cs => some cs
  | _ :: _, [] => none
  | p :: ps, c :: cs => if c = p then dropLead ps cs else none

def expectChar (e : Char) : List Char → Option (List Char)
  | [] => none
  | c :: cs => if c = e then some cs else none

def parsePairs : Nat → List Char → Option (List (Int × Int))
  | 0, _ => none
  | fuel + 1, cs =>
    match parseIntFrom cs with
    | none => none
    | some (x, r1) =>
      match expectChar ' ' r1 with
      | none => none
      | some r2 =>
        match parseIntFrom r2 with
        | none => none
        | some (y, r3) =>
          match r3 with
          | [')'] => some [(x, y)]
          | ',' :: ' ' :: r4 => (parsePairs fuel r4).map (fun l => (x, y) :: l)
          | _ => none

def wktLoadsChars (cs : List Char) : Option Geom :=
  match dropLead "POINT (".data cs with
  | some r =>
    match parseIntFrom r with
    | none => none
    | some (x, r1) =>
      match expectChar ' ' r1 with
      | none => none
      | some r2 =>
        match parseIntFrom r2 with
        | none => none
        | some (y, r3) => if r3 = [')'] then some (.point x y) else none
  | none =>
    if cs = "LINESTRING EMPTY".data then some (.lineString [])
    else
      match dropLead "LINESTRING (".data cs with
      | some r => (parsePairs (r.length + 1) r).map Geom.lineString
      | none => none

/-- The `wkt.loads`: shapely's WKT reader (model). -/
def wktLoads (s : String) : Option Geom := wktLoadsChars s.data

theorem dropLead_append (pre rest : List Char) : dropLead pre (pre ++ rest) = some rest := by
  induction pre with
  | nil => rfl
  | cons p ps ih => simp [dropLead, ih]

theorem parsePairs_print :
    ∀ (ps : List (Int × Int)) (fuel : Nat), ps ≠ [] → ps.length ≤ fuel →
      parsePairs fuel (pairsChars ps ++ [')']) = some ps := by
  intro ps
  induction ps with
  | nil => intro fuel h; exact absurd rfl h
  | cons p tail ih =>
    intro fuel _ hf
    cases fuel with
    | zero => simp at hf
    | succ f =>
      obtain ⟨x, y⟩ := p
      cases tail with
      | nil =>
        have h1 : parseIntFrom (intChars x ++ (' ' :: (intChars y ++ [')'])))
            = some (x, ' ' :: (intChars y ++ [')'])) :=
          parseIntFrom_intChars _ _ rfl
        have h3 : parseIntFrom (intChars y ++ [')']) = some (y, [')']) :=
          parseIntFrom_intChars _ _ rfl
        have hshape : pairsChars [(x, y)] ++ [')']
            = intChars x ++ (' ' :: (intChars y ++ [')'])) := by
          simp [pairsChars, pairChars]
        rw [hshape]
        simp [parsePairs, h1, expectChar, h3]
      | cons q rest =>
        have htail : parsePairs f (pairsChars (q :: rest) ++ [')']) = some (q :: rest) := by
          refine ih f (by simp) ?_
          simp only [List.length_cons] at hf ⊢
          omega
        have h1 : parseIntFrom
            (intChars x ++ (' ' :: (intChars y ++ ',' :: ' ' :: (pairsChars (q :: rest) ++ [')']))))
            = some (x, ' ' :: (intChars y ++ ',' :: ' ' :: (pairsChars (q :: rest) ++ [')']))) :=
          parseIntFrom_intChars _ _ rfl
        have h3 : parseIntFrom (intChars y ++ ',' :: ' ' :: (pairsChars (q :: rest) ++ [')']))
            = some (y, ',' :: ' ' :: (pairsChars (q :: rest) ++ [')'])) :=
          parseIntFrom_intChars _ _ rfl
        have hshape : pairsChars ((x, y) :: q :: rest) ++ [')']
            = intChars x ++ (' ' :: (intChars y ++ ',' :: ' ' :: (pairsChars (q :: rest) ++ [')']))) := by
          simp [pairsChars, pairChars]
        rw [hshape]
        simp [parsePairs, h1, expectChar, h3, htail]

theorem pairsChars_length (ps : List (Int × Int)) : ps.length ≤ (pairsChars ps).length + 1 := by
  induction ps with
  | nil => simp
  | cons p tail ih =>
    cases tail with
    | nil => simp only [pairsChars, List.length_cons, List.length_nil]; omega
    | cons q rest =>
      simp only [pairsChars, List.length_append, List.length_cons] at ih ⊢
      omega

theorem wktLoads_wktDump (g : Geom) : wktLoads (wktDump g) = some g := by
  cases g with
  | point x y =>
    have h1 : parseIntFrom (intChars x ++ (' ' :: (intChars y ++ [')'])))
        = some (x, ' ' :: (intChars y ++ [')'])) := parseIntFrom_intChars _ _ rfl
    have h3 : parseIntFrom (intChars y ++ [')']) = some (y, [')']) :=
      parseIntFrom_intChars _ _ rfl
    show wktLoadsChars ("POINT (".data ++ (intChars x ++ ' ' :: (intChars y ++ [')'])))
        = some (Geom.point x y)
    unfold wktLoadsChars
    rw [dropLead_append]
    simp [h1, expectChar, h3]
  | lineString ps =>
    cases ps with
    | nil => rfl
    | cons p rest =>
      have hdrop : dropLead "POINT (".data
          ("LINESTRING (".data ++ (pairsChars (p :: rest) ++ [')'])) = none := rfl
      have hne2 : ("LINESTRING (".data ++ (pairsChars (p :: rest) ++ [')'])
          = "LINESTRING EMPTY".data) = False := by
        simp only [eq_iff_iff, iff_false]
        intro hEq
        have h12 : ("LINESTRING (".data ++ (pairsChars (p :: rest) ++ [')'])).take 12
            = "LINESTRING (".data := by
          have hlen : ("LINESTRING (".data).length = 12 := rfl
          conv_lhs => rw [show (12 : Nat) = ("LINESTRING (".data).length from rfl]
          exact List.take_left _ _
        rw [hEq] at h12
        revert h12
        decide
      have hdrop2 : dropLead "LINESTRING (".data
          ("LINESTRING (".data ++ (pairsChars (p :: rest) ++ [')']))
          = some (pairsChars (p :: rest) ++ [')']) := dropLead_append _ _
      have hpp : parsePairs ((pairsChars (p :: rest)).length + 1 + 1)
          (pairsChars (p :: rest) ++ [')']) = some (p :: rest) := by
        apply parsePairs_print _ _ (by simp)
        have h := pairsChars_length (p :: rest)
        simp only [List.length_cons] at h
        simp only [List.length_append, List.length_cons, List.length_nil]
        omega
      show wktLoadsChars ("LINESTRING (".data ++ (pairsChars (p :: rest) ++ [')']))
          = some (Geom.lineString (p :: rest))
      unfold wktLoadsChars
      rw [hdrop, hdrop2]
      simp [hne2, hpp]

/-! ## Character-set facts about printed WKT -/

def wktAlphabet : List Char :=
  ['P', 'O', 'I', 'N', 'T', 'L', 'S', 'R', 'G', 'E', 'M', 'Y', ' ', '(', ')', ',', '-',
   '0', '1', '2', '3', '4', '5', '6', '7', '8', '9']

theorem charDigit_mem_alpha {c : Char} (h : (charDigit? c).isSome) : c ∈ wktAlphabet := by
  unfold charDigit? at h
  split at h
  · rename_i hc
    obtain ⟨h1, h2⟩ := hc
    rw [← Char.ofNat_toNat c]
    revert h1 h2
    generalize c.toNat = N
    intro h1 h2
    interval_cases N <;> decide
  · simp at h

theorem natStr_mem_alpha {n : Nat} {c : Char} (h : c ∈ natStr n) : c ∈ wktAlphabet :=
  charDigit_mem_alpha (natStr_mem_digit h)

theorem intChars_mem_alpha {i : Int} {c : Char} (h : c ∈ intChars i) : c ∈ wktAlphabet := by
  unfold intChars at h
  split at h
  · rcases List.mem_cons.mp h with rfl | h2
    · decide
    · exact natStr_mem_alpha h2
  · exact natStr_mem_alpha h

theorem pairChars_mem_alpha {p : Int × Int} {c : Char} (h : c ∈ pairChars p) :
    c ∈ wktAlphabet := by
  unfold pairChars at h
  rcases List.mem_append.mp h with h1 | h2
  · exact intChars_mem_alpha h1
  · rcases List.mem_cons.mp h2 with rfl | h3
    · decide
    · exact intChars_mem_alpha h3

theorem pairsChars_mem_alpha {ps : List (Int × Int)} {c : Char} (h : c ∈ pairsChars ps) :
    c ∈ wktAlphabet := by
  induction ps with
  | nil => simp [pairsChars] at h
  | cons p tail ih =>
    cases tail with
    | nil => exact pairChars_mem_alpha h
    | cons q rest =>
      simp only [pairsChars] at h
      rcases List.mem_append.mp h with h1 | h2
      · exact pairChars_mem_alpha h1
      · rcases List.mem_cons.mp h2 with rfl | h3
        · decide
        · rcases List.mem_cons.mp h3 with rfl | h4
          · decide
          · exact ih h4

theorem wktChars_mem_alpha {g : Geom} {c : Char} (h : c ∈ wktChars g) : c ∈ wktAlphabet := by
  cases g with
  | point x y =>
    simp only [wktChars] at h
    rcases List.mem_append.mp h with h1 | h2
    · exact (by decide : ∀ x ∈ "POINT (".data, x ∈ wktAlphabet) c h1
    · rcases List.mem_append.mp h2 with h3 | h4
      · exact intChars_mem_alpha h3
      · rcases List.mem_cons.mp h4 with rfl | h5
        · decide
        · rcases List.mem_append.mp h5 with h6 | h7
          · exact intChars_mem_alpha h6
          · rcases List.mem_singleton.mp h7 with rfl
            decide
  | lineString ps =>
    cases ps with
    | nil => exact (by decide : ∀ x ∈ "LINESTRING EMPTY".data, x ∈ wktAlphabet) c h
    | cons p rest =>
      simp only [wktChars] at h
      rcases List.mem_append.mp h with h1 | h2
      · exact (by decide : ∀ x ∈ "LINESTRING (".data, x ∈ wktAlphabet) c h1
      · rcases List.mem_append.mp h2 with h3 | h4
        · exact pairsChars_mem_alpha h3
        · rcases List.mem_singleton.mp h4 with rfl
          decide

theorem alpha_props : ∀ c ∈ wktAlphabet,
    c.toNat < 128 ∧ ¬c = '\n' ∧ ¬c = '|' ∧ ¬c = '\\' := by
  decide

theorem wktChars_ascii {g : Geom} {c : Char} (h : c ∈ wktChars g) : c.toNat < 128 :=
  (alpha_props c (wktChars_mem_alpha h)).1

theorem wktChars_no_newline {g : Geom} {c : Char} (h : c ∈ wktChars g) : ¬c = '\n' :=
  (alpha_props c (wktChars_mem_alpha h)).2.1

theorem wktChars_head (g : Geom) :
    (wktChars g).head? = some 'P' ∨ (wktChars g).head? = some 'L' := by
  cases g with
  | point x y => left; rfl
  | lineString ps => cases ps with
    | nil => right; rfl
    | cons p rest => right; rfl

/-! ## Hex text and binary bytes (models of `binascii` and shapely WKB) -/

/-- The character class `[0-9a-fA-F]` of `detect_encoding_type`. -/
def isHexChar (c : Char) : Bool :=
  decide (c ∈ "0123456789abcdefABCDEF".data)

/-- ASCII hex-digit value of a byte, accepting `0-9`, `a-f` and `A-F`. -/
def hexVal? (b : Nat) : Option Nat :=
  if 48 ≤ b ∧ b ≤ 57 then some (b - 48)
  else if 97 ≤ b ∧ b ≤ 102 then some (b - 87)
  else if 65 ≤ b ∧ b ≤ 70 then some (b - 55)
  else none

/-- The `binascii.unhexlify` (model): succeeds exactly when the byte string has
even length and consists of ASCII hex digits. -/
def unhexlifyBytes : List Nat → Option (List Nat)
  | [] => some []
  | [_] => none
  | a :: b :: rest =>
    match hexVal? a, hexVal? b, unhexlifyBytes rest with
    | some hi, some lo, some tail => some ((hi * 16 + lo) :: tail)
    | _, _, _ => none

def hexDigitChar (d : Nat) : Char :=
  "0123456789abcdef".data.getD d '0'

/-- The `binascii.hexlify` (model): lowercase hex text of a byte string. -/
def hexlifyChars : List Nat → List Char
  | [] => []
  | b :: rest => hexDigitChar (b / 16) :: hexDigitChar (b % 16) :: hexlifyChars rest

/-- The ASCII byte string underlying a Python `str` (all claims concern
ASCII data). -/
def strBytes (s : String) : List Nat := s.data.map Char.toNat

theorem hexVal_hexDigitChar {d : Nat} (h : d < 16) :
    hexVal? (hexDigitChar d).toNat = some d := by
  interval_cases d <;> rfl

theorem isHexChar_hexDigitChar (d : Nat) : isHexChar (hexDigitChar d) = true := by
  by_cases h : d < 16
  · interval_cases d <;> rfl
  · unfold hexDigitChar
    rw [List.getD_eq_default]
    · rfl
    · simp at h ⊢
      omega

theorem unhexlify_hexlify (bs : List Nat) (h : ∀ b ∈ bs, b < 256) :
    unhexlifyBytes ((hexlifyChars bs).map Char.toNat) = some bs := by
  induction bs with
  | nil => rfl
  | cons b rest ih =>
    have hb : b < 256 := h b (by simp)
    have hdiv : b / 16 < 16 := by omega
    have hmod : b % 16 < 16 := by omega
    have ihr := ih (fun x hx => h x (by simp [hx]))
    simp only [hexlifyChars, List.map_cons, unhexlifyBytes,
      hexVal_hexDigitChar hdiv, hexVal_hexDigitChar hmod, ihr]
    have : b / 16 * 16 + b % 16 = b := by omega
    rw [this]

/-- shapely WKB (model): the byte-order marker `0x01` — which is not the
ASCII code of any hex digit, the property `detect_encoding_type` relies
on — followed by the ASCII bytes of the WKT text. -/
def wkbDump (g : Geom) : List Nat := 1 :: (wktChars g).map Char.toNat

/-- The `wkb.loads` (model). -/
def wkbLoads? : List Nat → Option Geom
  | 1 :: rest => wktLoadsChars (rest.map Char.ofNat)
  | _ => none

theorem wkbLoads_wkbDump (g : Geom) : wkbLoads? (wkbDump g) = some g := by
  have hmap : ((wktChars g).map Char.toNat).map Char.ofNat = wktChars g := by
    rw [List.map_map]
    have : ∀ c ∈ wktChars g, (Char.ofNat ∘ Char.toNat) c = id c := by
      intro c _
      simp [Char.ofNat_toNat]
    rw [List.map_congr_left this, List.map_id]
  have : wkbLoads? (wkbDump g) = wktLoadsChars (((wktChars g).map Char.toNat).map Char.ofNat) := rfl
  rw [this, hmap]
  have h2 := wktLoads_wktDump g
  simpa [wktLoads, wktDump] using h2

theorem unhexlify_wkbDump (g : Geom) : unhexlifyBytes (wkbDump g) = none := by
  unfold wkbDump
  cases hw : (wktChars g).map Char.toNat with
  | nil => rfl
  | cons b rest =>
    simp [unhexlifyBytes, hexVal?]

theorem wkbDump_lt_256 (g : Geom) : ∀ b ∈ wkbDump g, b < 256 := by
  intro b hb
  rcases List.mem_cons.mp hb with rfl | h2
  · omega
  · obtain ⟨c, hc, rfl⟩ := List.mem_map.mp h2
    have := wktChars_ascii hc
    omega

/-! ## Python values and exceptions -/

/-- A Python value as it can appear in a geometry column or CSV cell. -/
inductive PyVal where
  | pyNone
  | pyStr (s : String)
  | pyBytes (b : List Nat)
  | pyGeom (g : Geom)
  | pyInt (n : Int)
deriving DecidableEq, Repr

/-- Python exceptions raised by the embedded code and its collaborators. -/
inductive PyError where
  | typeError (msg : String)
  | valueError (msg : String)
  | keyError (key : String)
  | attributeError (msg : String)
  | indexError
  | binasciiError
  | shapelyError
  | exception (msg : String)
  | rateLimit (retry_after : Nat)
deriving DecidableEq, Repr

instance {e a : Type} [DecidableEq e] [DecidableEq a] : DecidableEq (Except e a) := fun x y =>
  match x, y with
  | .ok v, .ok w =>
    if h : v = w then .isTrue (by rw [h]) else .isFalse (fun hc => h (by injection hc))
  | .error v, .error w =>
    if h : v = w then .isTrue (by rw [h]) else .isFalse (fun hc => h (by injection hc))
  | .ok _, .error _ => .isFalse (fun hc => Except.noConfusion hc)
  | .error _, .ok _ => .isFalse (fun hc => Except.noConfusion hc)

/-- Python truthiness of a geometry: shapely geometries are falsy iff empty. -/
def geomTruthy : Geom → Bool
  | .lineString [] => false
  | _ => true

/-- Python truthiness (`if geom:` in `_rows`). -/
def pyTruthy : PyVal → Bool
  | .pyNone => false
  | .pyStr s => s != ""
  | .pyBytes b => !b.isEmpty
  | .pyGeom g => geomTruthy g
  | .pyInt n => n != 0

/-- The `geom.wkt`: attribute access on a decode result. -/
def pyWkt : PyVal → Except PyError String
  | .pyGeom g => .ok (wktDump g)
  | _ => .error (.attributeError "object has no attribute wkt")

/-! ## The regexes of `detect_encoding_type` (data/utils.py) -/

/-- Remove a single trailing newline — the only region where Python's `$`
anchor still matches. -/
def stripNl : List Char → List Char
  | [] => []
  | [c] => if c = '\n' then [] else [c]
  | c :: d :: rest => c :: stripNl (d :: rest)

/-- The `re.match(r'^SRID=\d+;(.*)$', s)`, returning group 1.  `.*` cannot cross
a newline and `$` only matches at the end or before one final newline, so the
match succeeds exactly when the text after `SRID=<digits>;` is newline-free
once a single trailing newline is discarded. -/
def sridMatch? (s : String) : Option String :=
  match dropLead "SRID=".data s.data with
  | none => none
  | some r =>
    match takeDigits r with
    | ([], _) => none
    | (_ :: _, r2) =>
      match r2 with
      | ';' :: rest =>
        let rest' := stripNl rest
        if rest'.any (fun c => c == '\n') then none else some (String.mk rest')
      | _ => none

/-- The `re.match(r'^[0-9a-fA-F]+$', s)` viewed as a Boolean test. -/
def hexMatch (s : String) : Bool :=
  let cs := stripNl s.data
  !cs.isEmpty && cs.all isHexChar

/-- The `_remove_srid` (data/utils.py). -/
def _remove_srid (text : String) : String :=
  match sridMatch? text with
  | some r => r
  | none => text

/-! ## `detect_encoding_type` and `decode_geometry` (data/utils.py)

`decode_geometry` is wrapped by `_encode_decode_decorator`, which only
re-raises an `ImportError` for a missing shapely installation with a clearer
message; the model assumes shapely is importable, so the wrapper is the
identity. -/

/-- The `detect_encoding_type`: classify a geometry wire value into one of the
seven encoding tags; a value that is neither a shapely geometry nor `bytes`
nor `str` is a fatal `ValueError`. -/
def detect_encoding_type (input_geom : PyVal) : Except PyError String :=
  match input_geom with
  | .pyGeom _ => .ok "shapely"
  | .pyBytes b =>
    if (unhexlifyBytes b).isSome then .ok "wkb-hex" else .ok "wkb"
  | .pyStr s =>
    let result := sridMatch? s
    let pre := if result.isSome then "e" else ""
    let geom := result.getD s
    if hexMatch geom then .ok (pre ++ "wkb-hex-ascii") else .ok (pre ++ "wkt")
  | _ => .error (.valueError "Wrong input geometry.")

/-- The `ba.unhexlify(geom)`: accepts `bytes` or an ASCII `str`. -/
def pyUnhexlify : PyVal → Except PyError (List Nat)
  | .pyBytes b =>
    match unhexlifyBytes b with
    | some r => .ok r
    | none => .error .binasciiError
  | .pyStr s =>
    match unhexlifyBytes (strBytes s) with
    | some r => .ok r
    | none => .error .binasciiError
  | _ => .error (.typeError "argument should be a bytes-like object or ASCII string")

/-- The `wkb.loads(<bytes>)`. -/
def geomOfBytes (b : List Nat) : Except PyError Geom :=
  match wkbLoads? b with
  | some g => .ok g
  | none => .error .shapelyError

/-- The `wkb.loads(geom)`: requires a `bytes` argument. -/
def pyWkbLoads : PyVal → Except PyError Geom
  | .pyBytes b => geomOfBytes b
  | _ => .error (.typeError "expected bytes, got str")

/-- The `wkb.loads(geom, hex=True)`: requires a `str` of hex text. -/
def pyWkbLoadsHex : PyVal → Except PyError Geom
  | .pyStr s =>
    match unhexlifyBytes (strBytes s) with
    | some b => geomOfBytes b
    | none => .error .shapelyError
  | _ => .error (.typeError "expected str")

/-- The `wkt.loads(geom)`: requires a `str` argument. -/
def pyWktLoads : PyVal → Except PyError Geom
  | .pyStr s =>
    match wktLoads s with
    | some g => .ok g
    | none => .error .shapelyError
  | _ => .error (.typeError "expected str")

/-- The `_remove_srid(geom)`: `re.match` requires a `str` argument. -/
def pyRemoveSrid : PyVal → Except PyError PyVal
  | .pyStr s => .ok (.pyStr (_remove_srid s))
  | _ => .error (.typeError "expected string or bytes-like object")

/-- The dispatch dictionary of `decode_geometry`: `.get(enc_type)` yields the
decode function for each supported tag, `none` for an unrecognized tag. -/
def decode_dispatch (enc_type : String) : Option (PyVal → Except PyError PyVal) :=
  if enc_type = "shapely" then some (fun geom => .ok geom)
  else if enc_type = "wkb" then
    some (fun geom => do pure (.pyGeom (← pyWkbLoads geom)))
  else if enc_type = "wkb-hex" then
    some (fun geom => do pure (.pyGeom (← geomOfBytes (← pyUnhexlify geom))))
  else if enc_type = "wkb-hex-ascii" then
    some (fun geom => do pure (.pyGeom (← pyWkbLoadsHex geom)))
  else if enc_type = "ewkb-hex-ascii" then
    some (fun geom => do pure (.pyGeom (← pyWkbLoadsHex (← pyRemoveSrid geom))))
  else if enc_type = "wkt" then
    some (fun geom => do pure (.pyGeom (← pyWktLoads geom)))
  else if enc_type = "ewkt" then
    some (fun geom => do pure (.pyGeom (← pyWktLoads (← pyRemoveSrid geom))))
  else none

/-- The `decode_geometry` (data/utils.py): decode any geometry into a shapely
geometry through the dispatch dictionary; an unrecognized encoding tag is a
fatal `ValueError`. -/
def decode_geometry (geom : PyVal) (enc_type : String) : Except PyError PyVal :=
  match decode_dispatch enc_type with
  | some func => func geom
  | none => .error (.valueError ("Encoding type \"" ++ enc_type ++ "\" not supported"))

/-- Decode a value with its detected encoding — the round-trip composition of
the spec's testable property. -/
def detectDecode (v : PyVal) : Except PyError PyVal := do
  decode_geometry v (← detect_encoding_type v)

/-! ## Behaviour of the detector on each encoded form -/

theorem stripNl_id {cs : List Char} (h : ∀ c ∈ cs, ¬c = '\n') : stripNl cs = cs := by
  induction cs with
  | nil => rfl
  | cons c rest ih =>
    cases rest with
    | nil =>
      have hc := h c (by simp)
      simp [stripNl, hc]
    | cons d rest2 =>
      have ihr := ih (fun x hx => h x (by simp [hx]))
      simp [stripNl, ihr]

theorem any_nl_false {cs : List Char} (h : ∀ c ∈ cs, ¬c = '\n') :
    (cs.any (fun c => c == '\n')) = false := by
  rw [List.any_eq_false]
  intro x hx
  simpa using h x hx

theorem string_mk_append (s : String) (l : List Char) :
    s ++ String.mk l = String.mk (s.data ++ l) := rfl

theorem sridMatch_mk_4326 (tail : List Char) (hnl : ∀ c ∈ tail, ¬c = '\n') :
    sridMatch? (String.mk ("SRID=4326;".data ++ tail)) = some (String.mk tail) := by
  have hdata : (String.mk ("SRID=4326;".data ++ tail)).data
      = "SRID=".data ++ ('4' :: '3' :: '2' :: '6' :: ';' :: tail) := rfl
  have htd : takeDigits ('4' :: '3' :: '2' :: '6' :: ';' :: tail) = ([4, 3, 2, 6], ';' :: tail) := by
    have h := takeDigits_append [4, 3, 2, 6] (';' :: tail) (by decide) rfl
    simpa using h
  unfold sridMatch?
  rw [hdata, dropLead_append]
  simp [htd, stripNl_id hnl, any_nl_false hnl]

theorem sridMatch_none_of_head {s : String} {c : Char} {cs : List Char}
    (hdata : s.data = c :: cs) (hc : ¬c = 'S') : sridMatch? s = none := by
  unfold sridMatch?
  rw [hdata]
  have h5 : "SRID=".data = ['S', 'R', 'I', 'D', '='] := rfl
  have hdrop : dropLead "SRID=".data (c :: cs) = none := by
    rw [h5]
    simp [dropLead, hc]
  rw [hdrop]

theorem mem_hex_list_of_isHexChar {c : Char} (h : isHexChar c = true) :
    c ∈ "0123456789abcdefABCDEF".data := by
  simpa [isHexChar] using h

theorem hexMatch_mk_of {cs : List Char} (hne : cs ≠ [])
    (hhex : ∀ c ∈ cs, isHexChar c = true) : hexMatch (String.mk cs) = true := by
  have hnl : ∀ c ∈ cs, ¬c = '\n' := by
    intro c hc
    exact (by decide : ∀ x ∈ "0123456789abcdefABCDEF".data, ¬x = '\n') c
      (mem_hex_list_of_isHexChar (hhex c hc))
  unfold hexMatch
  rw [show (String.mk cs).data = cs from rfl, stripNl_id hnl]
  rcases cs with _ | ⟨c0, cs0⟩
  · exact absurd rfl hne
  · simp only [List.isEmpty_cons, Bool.not_false, Bool.true_and, List.all_eq_true]
    exact fun x hx => hhex x hx

theorem hexMatch_wkt_false (g : Geom) : hexMatch (String.mk (wktChars g)) = false := by
  have hnl : ∀ c ∈ wktChars g, ¬c = '\n' := fun _ hc => wktChars_no_newline hc
  unfold hexMatch
  rw [show (String.mk (wktChars g)).data = wktChars g from rfl, stripNl_id hnl]
  rcases hh : wktChars g with _ | ⟨c, cs⟩
  · rfl
  · have hhead := wktChars_head g
    rw [hh] at hhead
    simp only [List.head?_cons, Option.some.injEq] at hhead
    have hcf : isHexChar c = false := by
      rcases hhead with rfl | rfl <;> rfl
    simp [hcf]

theorem hexlify_all_hex (bs : List Nat) : ∀ c ∈ hexlifyChars bs, isHexChar c = true := by
  induction bs with
  | nil => simp [hexlifyChars]
  | cons b rest ih =>
    intro c hc
    simp only [hexlifyChars, List.mem_cons] at hc
    rcases hc with rfl | rfl | hc
    · exact isHexChar_hexDigitChar _
    · exact isHexChar_hexDigitChar _
    · exact ih c hc

theorem hexlify_wkbDump_data (g : Geom) :
    hexlifyChars (wkbDump g) = '0' :: '1' :: hexlifyChars ((wktChars g).map Char.toNat) := rfl

/-! ### Classification of each encoded form by `detect_encoding_type` -/

theorem detect_shapely (g : Geom) : detect_encoding_type (.pyGeom g) = .ok "shapely" := rfl

theorem detect_wkb (g : Geom) : detect_encoding_type (.pyBytes (wkbDump g)) = .ok "wkb" := by
  simp [detect_encoding_type, unhexlify_wkbDump g]

theorem detect_wkb_hex (g : Geom) :
    detect_encoding_type (.pyBytes ((hexlifyChars (wkbDump g)).map Char.toNat))
      = .ok "wkb-hex" := by
  simp [detect_encoding_type, unhexlify_hexlify _ (wkbDump_lt_256 g)]

theorem detect_wkb_hex_ascii (g : Geom) :
    detect_encoding_type (.pyStr (String.mk (hexlifyChars (wkbDump g))))
      = .ok "wkb-hex-ascii" := by
  have hsrid : sridMatch? (String.mk (hexlifyChars (wkbDump g))) = none := by
    apply @sridMatch_none_of_head _ '0' ('1' :: hexlifyChars ((wktChars g).map Char.toNat))
    · rw [show (String.mk (hexlifyChars (wkbDump g))).data = hexlifyChars (wkbDump g) from rfl,
        hexlify_wkbDump_data]
    · decide
  have hhex : hexMatch (String.mk (hexlifyChars (wkbDump g))) = true := by
    apply hexMatch_mk_of
    · rw [hexlify_wkbDump_data]
      simp
    · exact hexlify_all_hex _
  simp [detect_encoding_type, hsrid, hhex]

theorem detect_ewkb_hex_ascii (g : Geom) :
    detect_encoding_type (.pyStr ("SRID=4326;" ++ String.mk (hexlifyChars (wkbDump g))))
      = .ok "ewkb-hex-ascii" := by
  have hnl : ∀ c ∈ hexlifyChars (wkbDump g), ¬c = '\n' := by
    intro c hc
    exact (by decide : ∀ x ∈ "0123456789abcdefABCDEF".data, ¬x = '\n') c
      (mem_hex_list_of_isHexChar (hexlify_all_hex _ c hc))
  have hsrid : sridMatch? ("SRID=4326;" ++ String.mk (hexlifyChars (wkbDump g)))
      = some (String.mk (hexlifyChars (wkbDump g))) := by
    rw [string_mk_append]
    exact sridMatch_mk_4326 _ hnl
  have hhex : hexMatch (String.mk (hexlifyChars (wkbDump g))) = true := by
    apply hexMatch_mk_of
    · rw [hexlify_wkbDump_data]
      simp
    · exact hexlify_all_hex _
  simp [detect_encoding_type, hsrid, hhex]

theorem detect_wkt (g : Geom) :
    detect_encoding_type (.pyStr (wktDump g)) = .ok "wkt" := by
  have hsrid : sridMatch? (wktDump g) = none := by
    rcases hw : wktChars g with _ | ⟨c, cs⟩
    · have := wktChars_head g
      rw [hw] at this
      simp at this
    · have hhead := wktChars_head g
      rw [hw] at hhead
      simp only [List.head?_cons, Option.some.injEq] at hhead
      apply @sridMatch_none_of_head _ c cs
      · rw [show (wktDump g).data = wktChars g from rfl, hw]
      · rcases hhead with rfl | rfl <;> decide
  have hhex : hexMatch (wktDump g) = false := hexMatch_wkt_false g
  simp [detect_encoding_type, hsrid, hhex]

theorem detect_ewkt (g : Geom) :
    detect_encoding_type (.pyStr ("SRID=4326;" ++ wktDump g)) = .ok "ewkt" := by
  have hsrid : sridMatch? ("SRID=4326;" ++ wktDump g) = some (String.mk (wktChars g)) := by
    rw [show wktDump g = String.mk (wktChars g) from rfl, string_mk_append]
    exact sridMatch_mk_4326 _ (fun _ hc => wktChars_no_newline hc)
  have hhex : hexMatch (String.mk (wktChars g)) = false := hexMatch_wkt_false g
  simp [detect_encoding_type, hsrid, hhex]

/-! ### Decoding each encoded form -/

theorem decode_geometry_dispatch {e : String} {f : PyVal → Except PyError PyVal}
    (h : decode_dispatch e = some f) (v : PyVal) : decode_geometry v e = f v := by
  unfold decode_geometry
  rw [h]

theorem strBytes_mk (l : List Char) : strBytes (String.mk l) = l.map Char.toNat := rfl

theorem unhexlify_strBytes_hexlify (g : Geom) :
    unhexlifyBytes (strBytes (String.mk (hexlifyChars (wkbDump g)))) = some (wkbDump g) := by
  rw [strBytes_mk]
  exact unhexlify_hexlify _ (wkbDump_lt_256 g)

theorem remove_srid_wkt (g : Geom) :
    _remove_srid ("SRID=4326;" ++ wktDump g) = String.mk (wktChars g) := by
  unfold _remove_srid
  rw [show wktDump g = String.mk (wktChars g) from rfl, string_mk_append,
    sridMatch_mk_4326 _ (fun _ hc => wktChars_no_newline hc)]

theorem remove_srid_hex (g : Geom) :
    _remove_srid ("SRID=4326;" ++ String.mk (hexlifyChars (wkbDump g)))
      = String.mk (hexlifyChars (wkbDump g)) := by
  have hnl : ∀ c ∈ hexlifyChars (wkbDump g), ¬c = '\n' := by
    intro c hc
    exact (by decide : ∀ x ∈ "0123456789abcdefABCDEF".data, ¬x = '\n') c
      (mem_hex_list_of_isHexChar (hexlify_all_hex _ c hc))
  unfold _remove_srid
  rw [string_mk_append, sridMatch_mk_4326 _ hnl]

theorem wktLoads_mk_wktChars (g : Geom) : wktLoads (String.mk (wktChars g)) = some g :=
  wktLoads_wktDump g

theorem dispatch_shapely : decode_dispatch "shapely" = some (fun geom => .ok geom) := rfl

theorem dispatch_wkb : decode_dispatch "wkb"
    = some (fun geom => do pure (.pyGeom (← pyWkbLoads geom))) := rfl

theorem dispatch_wkb_hex : decode_dispatch "wkb-hex"
    = some (fun geom => do pure (.pyGeom (← geomOfBytes (← pyUnhexlify geom)))) := rfl

theorem dispatch_wkb_hex_ascii : decode_dispatch "wkb-hex-ascii"
    = some (fun geom => do pure (.pyGeom (← pyWkbLoadsHex geom))) := rfl

theorem dispatch_ewkb_hex_ascii : decode_dispatch "ewkb-hex-ascii"
    = some (fun geom => do pure (.pyGeom (← pyWkbLoadsHex (← pyRemoveSrid geom)))) := rfl

theorem dispatch_wkt : decode_dispatch "wkt"
    = some (fun geom => do pure (.pyGeom (← pyWktLoads geom))) := rfl

theorem dispatch_ewkt : decode_dispatch "ewkt"
    = some (fun geom => do pure (.pyGeom (← pyWktLoads (← pyRemoveSrid geom)))) := rfl

/-- C3: for every canonical geometry `G`, the upload encoding
`'SRID=4326;' + WKT(G)` decodes back to `G` under its detected encoding, and
the analogous round-trip holds for each of the seven supported encodings of
`G` (model coordinates are exact integers, so equality up to coordinate
precision is plain equality). -/
theorem claimC3_roundtrip (g : Geom) :
    detectDecode (.pyStr ("SRID=4326;" ++ wktDump g)) = .ok (.pyGeom g)
    ∧ detectDecode (.pyGeom g) = .ok (.pyGeom g)
    ∧ detectDecode (.pyBytes (wkbDump g)) = .ok (.pyGeom g)
    ∧ detectDecode (.pyBytes ((hexlifyChars (wkbDump g)).map Char.toNat)) = .ok (.pyGeom g)
    ∧ detectDecode (.pyStr (String.mk (hexlifyChars (wkbDump g)))) = .ok (.pyGeom g)
    ∧ detectDecode (.pyStr ("SRID=4326;" ++ String.mk (hexlifyChars (wkbDump g)))) = .ok (.pyGeom g)
    ∧ detectDecode (.pyStr (wktDump g)) = .ok (.pyGeom g) := by
  refine ⟨?_, ?_, ?_, ?_, ?_, ?_, ?_⟩
  · unfold detectDecode
    rw [detect_ewkt g]
    show decode_geometry (.pyStr ("SRID=4326;" ++ wktDump g)) "ewkt" = .ok (.pyGeom g)
    rw [decode_geometry_dispatch dispatch_ewkt]
    simp [pyRemoveSrid, remove_srid_wkt g, pyWktLoads, wktLoads_mk_wktChars g, bind,
      Except.bind, Functor.map, Except.map, pure, Except.pure]
  · rfl
  · unfold detectDecode
    rw [detect_wkb g]
    show decode_geometry (.pyBytes (wkbDump g)) "wkb" = .ok (.pyGeom g)
    rw [decode_geometry_dispatch dispatch_wkb]
    simp [pyWkbLoads, geomOfBytes, wkbLoads_wkbDump g]
  · unfold detectDecode
    rw [detect_wkb_hex g]
    show decode_geometry (.pyBytes ((hexlifyChars (wkbDump g)).map Char.toNat)) "wkb-hex"
        = .ok (.pyGeom g)
    rw [decode_geometry_dispatch dispatch_wkb_hex]
    simp [pyUnhexlify, unhexlify_hexlify _ (wkbDump_lt_256 g), geomOfBytes, wkbLoads_wkbDump g,
      bind, Except.bind, Functor.map, Except.map, pure, Except.pure]
  · unfold detectDecode
    rw [detect_wkb_hex_ascii g]
    show decode_geometry (.pyStr (String.mk (hexlifyChars (wkbDump g)))) "wkb-hex-ascii"
        = .ok (.pyGeom g)
    rw [decode_geometry_dispatch dispatch_wkb_hex_ascii]
    simp [pyWkbLoadsHex, unhexlify_strBytes_hexlify g, geomOfBytes, wkbLoads_wkbDump g]
  · unfold detectDecode
    rw [detect_ewkb_hex_ascii g]
    show decode_geometry (.pyStr ("SRID=4326;" ++ String.mk (hexlifyChars (wkbDump g))))
        "ewkb-hex-ascii" = .ok (.pyGeom g)
    rw [decode_geometry_dispatch dispatch_ewkb_hex_ascii]
    simp [pyRemoveSrid, remove_srid_hex g, pyWkbLoadsHex, unhexlify_strBytes_hexlify g,
      geomOfBytes, wkbLoads_wkbDump g, bind, Except.bind, Functor.map, Except.map, pure, Except.pure]
  · unfold detectDecode
    rw [detect_wkt g]
    show decode_geometry (.pyStr (wktDump g)) "wkt" = .ok (.pyGeom g)
    rw [decode_geometry_dispatch dispatch_wkt]
    simp [pyWktLoads, wktLoads_wktDump g]

/-! ## C4 machinery: decode functions for supported tags never raise the
unsupported-encoding `ValueError` -/

/-- The three input shapes `detect_encoding_type` handles without error: a
shapely geometry, `bytes`, or `str`. -/
def isGeomInputShape : PyVal → Bool
  | .pyGeom _ => true
  | .pyBytes _ => true
  | .pyStr _ => true
  | _ => false

/-- The seven encoding tags of the dispatch dictionary. -/
def encodingTags : List String :=
  ["shapely", "wkb", "wkb-hex", "wkb-hex-ascii", "ewkb-hex-ascii", "wkt", "ewkt"]

theorem geomOfBytes_no_ve (b : List Nat) (m : String) :
    geomOfBytes b ≠ .error (.valueError m) := by
  unfold geomOfBytes
  split <;> simp

theorem pyWkbLoads_no_ve (w : PyVal) (m : String) :
    pyWkbLoads w ≠ .error (.valueError m) := by
  cases w
  case pyBytes b => exact geomOfBytes_no_ve b m
  all_goals simp [pyWkbLoads]

theorem pyUnhexlify_no_ve (w : PyVal) (m : String) :
    pyUnhexlify w ≠ .error (.valueError m) := by
  cases w <;> unfold pyUnhexlify <;> try simp
  all_goals split <;> simp

theorem pyWkbLoadsHex_no_ve (w : PyVal) (m : String) :
    pyWkbLoadsHex w ≠ .error (.valueError m) := by
  cases w <;> unfold pyWkbLoadsHex <;> try simp
  all_goals split
  · exact geomOfBytes_no_ve _ m
  · simp

theorem pyWktLoads_no_ve (w : PyVal) (m : String) :
    pyWktLoads w ≠ .error (.valueError m) := by
  cases w <;> unfold pyWktLoads <;> try simp
  all_goals split <;> simp

theorem pyRemoveSrid_no_ve (w : PyVal) (m : String) :
    pyRemoveSrid w ≠ .error (.valueError m) := by
  cases w <;> simp [pyRemoveSrid]

theorem bind_no_ve {α β : Type} {x : Except PyError α} {f : α → Except PyError β}
    (hx : ∀ m, x ≠ .error (.valueError m)) (hf : ∀ a m, f a ≠ .error (.valueError m))
    (m : String) : (x >>= f) ≠ .error (.valueError m) := by
  cases x with
  | error e =>
    have hb : (Except.error e : Except PyError α) >>= f = (Except.error e : Except PyError β) := rfl
    rw [hb]
    intro hc
    have he : e = PyError.valueError m := by injection hc
    exact hx m (by rw [he])
  | ok a =>
    have hb : (Except.ok a : Except PyError α) >>= f = f a := rfl
    rw [hb]
    exact hf a m

theorem pure_no_ve {β : Type} (a : β) (m : String) :
    (pure a : Except PyError β) ≠ .error (.valueError m) :=
  fun hc => Except.noConfusion hc

/-- C4: on every shapely-geometry, `bytes` or `str` input the detector
returns one of the seven tags without raising; every returned tag is a key of
`decode_geometry`'s dispatch dictionary, so decoding with a detected tag goes
through the dictionary and can never reach the unsupported-encoding
`ValueError` branch. -/
theorem claimC4_detect_total (v : PyVal) (h : isGeomInputShape v = true) :
    ∃ t, detect_encoding_type v = .ok t ∧ t ∈ encodingTags
      ∧ ∃ f, decode_dispatch t = some f
        ∧ (∀ w, decode_geometry w t = f w)
        ∧ ∀ w m, decode_geometry w t ≠ .error (.valueError m) := by
  cases v with
  | pyNone => simp [isGeomInputShape] at h
  | pyInt n => simp [isGeomInputShape] at h
  | pyGeom g =>
    refine ⟨"shapely", rfl, by decide, _, dispatch_shapely,
      fun w => decode_geometry_dispatch dispatch_shapely w, ?_⟩
    intro w m
    rw [decode_geometry_dispatch dispatch_shapely]
    exact fun hc => Except.noConfusion hc
  | pyBytes b =>
    by_cases hu : (unhexlifyBytes b).isSome
    · refine ⟨"wkb-hex", by simp [detect_encoding_type, hu], by decide, _, dispatch_wkb_hex,
        fun w => decode_geometry_dispatch dispatch_wkb_hex w, ?_⟩
      intro w m
      rw [decode_geometry_dispatch dispatch_wkb_hex]
      exact bind_no_ve (pyUnhexlify_no_ve w)
        (fun a => bind_no_ve (geomOfBytes_no_ve a) (fun g => pure_no_ve (PyVal.pyGeom g))) m
    · refine ⟨"wkb", by simp [detect_encoding_type, hu], by decide, _, dispatch_wkb,
        fun w => decode_geometry_dispatch dispatch_wkb w, ?_⟩
      intro w m
      rw [decode_geometry_dispatch dispatch_wkb]
      exact bind_no_ve (pyWkbLoads_no_ve w) (fun g => pure_no_ve (PyVal.pyGeom g)) m
  | pyStr s =>
    rcases hsr : sridMatch? s with _ | r
    · by_cases hhx : hexMatch s
      · refine ⟨"wkb-hex-ascii", by simp [detect_encoding_type, hsr, hhx], by decide, _,
          dispatch_wkb_hex_ascii, fun w => decode_geometry_dispatch dispatch_wkb_hex_ascii w, ?_⟩
        intro w m
        rw [decode_geometry_dispatch dispatch_wkb_hex_ascii]
        exact bind_no_ve (pyWkbLoadsHex_no_ve w) (fun g => pure_no_ve (PyVal.pyGeom g)) m
      · refine ⟨"wkt", by simp [detect_encoding_type, hsr, hhx], by decide, _, dispatch_wkt,
          fun w => decode_geometry_dispatch dispatch_wkt w, ?_⟩
        intro w m
        rw [decode_geometry_dispatch dispatch_wkt]
        exact bind_no_ve (pyWktLoads_no_ve w) (fun g => pure_no_ve (PyVal.pyGeom g)) m
    · by_cases hhx : hexMatch r
      · refine ⟨"ewkb-hex-ascii", by simp [detect_encoding_type, hsr, hhx], by decide, _,
          dispatch_ewkb_hex_ascii,
          fun w => decode_geometry_dispatch dispatch_ewkb_hex_ascii w, ?_⟩
        intro w m
        rw [decode_geometry_dispatch dispatch_ewkb_hex_ascii]
        exact bind_no_ve (pyRemoveSrid_no_ve w)
          (fun a => bind_no_ve (pyWkbLoadsHex_no_ve a)
            (fun g => pure_no_ve (PyVal.pyGeom g))) m
      · refine ⟨"ewkt", by simp [detect_encoding_type, hsr, hhx], by decide, _, dispatch_ewkt,
          fun w => decode_geometry_dispatch dispatch_ewkt w, ?_⟩
        intro w m
        rw [decode_geometry_dispatch dispatch_ewkt]
        exact bind_no_ve (pyRemoveSrid_no_ve w)
          (fun a => bind_no_ve (pyWktLoads_no_ve a)
            (fun g => pure_no_ve (PyVal.pyGeom g))) m

/-- Witness for C4 at the concrete input `'POINT (1 2)'`. -/
theorem claimC4_detect_total_witness :
    isGeomInputShape (.pyStr "POINT (1 2)") = true
    ∧ ∃ t, detect_encoding_type (.pyStr "POINT (1 2)") = .ok t ∧ t ∈ encodingTags
      ∧ ∃ f, decode_dispatch t = some f
        ∧ (∀ w, decode_geometry w t = f w)
        ∧ ∀ w m, decode_geometry w t ≠ .error (.valueError m) :=
  ⟨rfl, claimC4_detect_total _ rfl⟩

/-! ## ColumnModel and RowEncoder collaborators

`io/context.py` imports `Column`, `DataframeColumnsInfo`, `obtain_index_col`,
`normalize_name`, `encode_row` and `PG_NULL` from `cartoframes/utils/`, which
is not under `src/`; those pieces are modelled from the spec below. -/

/-- A column resolved from a remote query's result schema.  Modelled from the
spec: one Column per returned field with a name, a database type taken from
the remote description, and an index flag (`ColumnModel`; at most one column
is the index). -/
structure Column where
  name : String
  dbType : String
  isIndex : Bool
deriving DecidableEq, Repr

/-- Modelled from the spec: `obtain_index_col` (`cartoframes/utils/columns.py`,
not under src/) — the name of the column the ColumnSet designates as the
index, if any. -/
def obtain_index_col (columns : List Column) : Option String :=
  (columns.find? (fun c => c.isIndex)).map (fun c => c.name)

/-- Modelled from the spec: one column record of `DataframeColumnsInfo`
(`cartoframes/utils/columns.py`, not under src/): normalized database name,
database storage type, and the local dataframe column name. -/
structure DfColumn where
  database : String
  database_type : String
  dataframe : String
deriving DecidableEq, Repr

/-- Modelled from the spec: `DataframeColumnsInfo` — the classification of a
local dataframe's columns (ordered column list, the flagged geometry column,
and the geometry encoding type detected for it).  Its construction lives in
code not under `src/`, so the embedding takes the classification as given. -/
structure DataframeColumnsInfo where
  columns : List DfColumn
  geom_column : Option String
  enc_type : String
deriving DecidableEq, Repr

/-- Modelled from the spec: `normalize_name` (`cartoframes/utils/columns.py`,
not under src/) — normalize a table name into a remote-safe identifier:
lowercase, illegal characters replaced. -/
def normalize_name (name : String) : String :=
  String.mk (name.data.map (fun c =>
    if c.isAlphanum || c = '_' then c.toLower else '_'))

/-- Modelled from the spec: `PG_NULL` (`cartoframes/utils/utils.py`, not
under src/) — the reserved literal null token of the bulk-load wire format,
distinct from the empty string. -/
def PG_NULL : String := "\\N"

/-- Escape one character of field text for the `|`-delimited bulk-load
format. -/
def escapeChar (c : Char) : List Char :=
  if c = '|' || c = '\n' || c = '\\' then ['\\', c] else [c]

/-- Python `str(value)` for the cell values the model supports (geometry
fields are always re-encoded to `str` before `encode_row` sees them). -/
def pyValText : PyVal → String
  | .pyNone => ""
  | .pyStr s => s
  | .pyBytes _ => ""
  | .pyGeom g => wktDump g
  | .pyInt n => toString n

/-- Modelled from the spec: `encode_row` (`cartoframes/utils/utils.py`, not
under src/) — serialize one field as bytes: missing/undefined values become
the reserved null sentinel, any other value its text form with literal
delimiter/newline/escape bytes escaped. -/
def encode_row (v : PyVal) : List Nat :=
  match v with
  | .pyNone => strBytes PG_NULL
  | _ => strBytes (String.mk ((pyValText v).data.flatMap escapeChar))

/-! ## TransferManager: `ContextManager` (io/context.py) -/

/-- The CSV stream returned by a COPY TO download. -/
structure Csv where
  header : List String
  rows : List (List String)
deriving DecidableEq, Repr

/-- A pandas dataframe as the embedded code observes it: column names, cell
text, an optional row index and the index name.  The per-column converters
and date parsing of `pd.read_csv` (driven by `obtain_converters` /
`date_columns_names`, not under src/) transform cell values in place and
change neither the header nor the row count, so the model keeps cells as raw
text. -/
structure DataFrame where
  columns : List String
  rows : List (List String)
  index : Option (List String)
  indexName : Option String
deriving DecidableEq, Repr

/-- The `pd.read_csv` (model): the header row becomes the columns, the remaining
records the rows, with the default unnamed integer index. -/
def read_csv (csv : Csv) : DataFrame :=
  { columns := csv.header, rows := csv.rows, index := none, indexName := none }

/-- The `df[col]` (model): the column's cell values; `none` is pandas'
`KeyError` for a missing column. -/
def getCol (df : DataFrame) (name : String) : Option (List String) :=
  if name ∈ df.columns then
    some (df.rows.map (fun r => r.getD (df.columns.indexOf name) ""))
  else none

/-- One observable interaction with the CARTO transport client. -/
inductive Effect where
  | query (sql : String)
  | longRunningQuery (sql : String)
  | copyToChannel (sql : String)
  | copyFromChannel (sql : String)
  | sleep (secs : Nat)
deriving DecidableEq, Repr

/-- Outcome of one `copy_client.copyto_stream` transport attempt. -/
inductive CopyAttempt where
  | ok (csv : Csv)
  | rateLimited (retry_after : Nat)
deriving DecidableEq, Repr

/-- The remote environment one `ContextManager` call observes: the current
schema, which inner queries make `SELECT EXISTS` succeed, the column set the
LIMIT-0 probe reports (`Column.from_sql_api_fields` lives in code not under
src/: the environment supplies the resolved columns directly), and the
outcome of each successive streaming download attempt. -/
structure RemoteEnv where
  currentSchema : String
  existsOk : String → Bool
  columnsOf : String → List Column
  stream : Nat → CopyAttempt

def DEFAULT_RETRY_TIMES : Nat := 3

/-- Modelled from the spec: `is_sql_query` (`cartoframes/utils/utils.py`, not
under src/) — a source is passed through when it is already a query,
otherwise treated as a table name. -/
def is_sql_query (source : String) : Bool :=
  source.startsWith "SELECT " || source.startsWith "WITH "

/-- Modelled from the spec: `compute_query_from_table`
(`cartoframes/utils/geom_utils.py`, not under src/), mirroring the sibling
`compute_query` in data/utils.py: qualify a table name with a schema. -/
def compute_query_from_table (table schema : String) : String :=
  "SELECT * FROM \"" ++ schema ++ "\".\"" ++ table ++ "\""

/-- The `get_schema` (io/context.py): one `SELECT current_schema()` query. -/
def get_schema (env : RemoteEnv) : List Effect × String :=
  ([.query "SELECT current_schema()"], env.currentSchema)

/-- The `_compute_query` (io/context.py). -/
def _compute_query (env : RemoteEnv) (source : String) (schema : Option String) :
    List Effect × String :=
  if is_sql_query source then ([], source)
  else
    match schema with
    | some sch => ([], compute_query_from_table source sch)
    | none =>
      let (eff, sch) := get_schema env
      (eff, compute_query_from_table source sch)

/-- The `_check_exists` (io/context.py): `SELECT EXISTS (query)`; any failure is
re-raised as `ValueError`. -/
def _check_exists (env : RemoteEnv) (query : String) :
    List Effect × Except PyError Unit :=
  ([.query ("SELECT EXISTS (" ++ query ++ ")")],
    if env.existsOk query then .ok () else .error (.valueError "source not found"))

/-- The `_get_columns` (io/context.py): LIMIT-0 schema probe. -/
def _get_columns (env : RemoteEnv) (query : String) : List Effect × List Column :=
  ([.query ("SELECT * FROM (" ++ query ++ ") _q LIMIT 0")], env.columnsOf query)

/-- The Python `limit` argument: `None`, an `int`, or a value of some other
runtime type (for which `isinstance(limit, int)` is false). -/
inductive PyLimit where
  | none
  | int (n : Int)
  | other
deriving DecidableEq, Repr

/-- The `query_columns` list comprehension of `_get_copy_query`
(io/context.py): every resolved column, in order, except that
`the_geom_webmercator` is kept only on request. -/
def projected_columns (columns : List Column) (keep_the_geom_webmercator : Bool) :
    List String :=
  (columns.filter
    (fun c => c.name != "the_geom_webmercator" || keep_the_geom_webmercator)).map
      (fun c => c.name)

/-- The projection statement `_get_copy_query` builds before any LIMIT
clause. -/
def projection_query (query : String) (columns : List Column)
    (keep_the_geom_webmercator : Bool) : String :=
  "SELECT " ++ String.intercalate "," (projected_columns columns keep_the_geom_webmercator)
    ++ " FROM (" ++ query ++ ") _q"

/-- The `_get_copy_query` (io/context.py): project the resolved columns (dropping
`the_geom_webmercator` unless requested) and apply the validated `LIMIT`. -/
def _get_copy_query (query : String) (columns : List Column) (limit : PyLimit)
    (keep_the_geom_webmercator : Bool) : Except PyError String :=
  let q := projection_query query columns keep_the_geom_webmercator
  match limit with
  | .none => .ok q
  | .int n =>
    if n ≥ 0 then .ok (q ++ " LIMIT " ++ toString n)
    else .error (.valueError "`limit` parameter must an integer >= 0")
  | .other => .error (.valueError "`limit` parameter must an integer >= 0")

/-- The bounded retry loop of `_copy_to` (io/context.py): attempt the
streaming download; on a `CartoRateLimitException` sleep for the
server-supplied backoff and retry while `retry_times > 0` (decrementing it),
otherwise re-raise.  `attempt` numbers the transport attempts so the
environment can script each outcome; the returned `Nat` is the value of
`retry_times` at the final attempt (the remaining budget). -/
def _copy_to_stream (stream : Nat → CopyAttempt) (copy_query : String) :
    Nat → Nat → List Effect × Nat × Except PyError Csv
  | attempt, retry_times =>
    match stream attempt with
    | .ok csv => ([.copyToChannel copy_query], retry_times, .ok csv)
    | .rateLimited ra =>
      match retry_times with
      | rt + 1 =>
        let r := _copy_to_stream stream copy_query (attempt + 1) rt
        (.copyToChannel copy_query :: .sleep ra :: r.1, r.2)
      | 0 => ([.copyToChannel copy_query], 0, .error (.rateLimit ra))

/-- The COPY TO statement `_copy_to` wraps around the projection query. -/
def copy_query_sql (query : String) : String :=
  "COPY (" ++ query ++ ") TO stdout WITH (FORMAT csv, HEADER true, NULL '"
    ++ PG_NULL ++ "')"

/-- The tail of `_copy_to` after a successful download (io/context.py):
`pd.read_csv`, then — when the ColumnSet designates an index column —
`df.index = df[index_col]` followed by `df.index.name = None`, which copies
the column into the index and clears the index name but does not remove the
column from the dataframe. -/
def copy_to_postprocess (columns : List Column) (csv : Csv) :
    Except PyError DataFrame :=
  let df := read_csv csv
  match obtain_index_col columns with
  | Option.none => .ok df
  | some i =>
    match getCol df i with
    | Option.none => .error (.keyError i)
    | some vals => .ok { df with index := some vals, indexName := Option.none }

/-- The `_copy_to` (io/context.py): wrap the projection in a COPY TO statement,
stream it with bounded rate-limit retry, then parse and post-process the
CSV. -/
def _copy_to (env : RemoteEnv) (query : String) (columns : List Column)
    (retry_times : Nat) : List Effect × Except PyError DataFrame :=
  let copy_query := copy_query_sql query
  let (tr, _rt, res) := _copy_to_stream env.stream copy_query 0 retry_times
  (tr, match res with
       | .error e => .error e
       | .ok csv => copy_to_postprocess columns csv)

/-- The `copy_to` (io/context.py): resolve the query, probe existence, resolve
columns, build the projection, stream the download. -/
def copy_to (env : RemoteEnv) (source : String) (schema : Option String)
    (limit : PyLimit) (retry_times : Nat) (keep_the_geom_webmercator : Bool) :
    List Effect × Except PyError DataFrame :=
  let (e1, query) := _compute_query env source schema
  let (e2, chk) := _check_exists env query
  match chk with
  | .error e => (e1 ++ e2, .error e)
  | .ok _ =>
    let (e3, columns) := _get_columns env query
    match _get_copy_query query columns limit keep_the_geom_webmercator with
    | .error e => (e1 ++ e2 ++ e3, .error e)
    | .ok copy_query =>
      let (e4, res) := _copy_to env copy_query columns retry_times
      (e1 ++ e2 ++ e3 ++ e4, res)

/-! ## Table lifecycle SQL and `copy_from` (io/context.py) -/

/-- The `_drop_table_query` (io/context.py); `copy_from` always calls it with the
default `if_exists=True`. -/
def _drop_table_query (table_name : String) : String :=
  "DROP TABLE IF EXISTS " ++ table_name

/-- The `_create_table_query` (io/context.py). -/
def _create_table_query (table_name : String) (columns : List DfColumn) : String :=
  "CREATE TABLE " ++ table_name ++ " ("
    ++ String.intercalate ", "
      (columns.map (fun c => c.database ++ " " ++ c.database_type))
    ++ ")"

/-- The `_cartodbfy_query` (io/context.py). -/
def _cartodbfy_query (table_name schema : String) : String :=
  "SELECT CDB_CartodbfyTable('" ++ schema ++ "', '" ++ table_name ++ "')"

/-- The single `BEGIN; ...; COMMIT;` transaction string `_create_table`
assembles. -/
def _create_table_sql (table_name : String) (columns : List DfColumn)
    (schema : String) : String :=
  "BEGIN; " ++ _drop_table_query table_name ++ "; "
    ++ _create_table_query table_name columns ++ "; "
    ++ _cartodbfy_query table_name schema ++ "; COMMIT;"

/-- The `_create_table` (io/context.py): exactly one long-running query. -/
def _create_table (table_name : String) (columns : List DfColumn)
    (schema : String) : List Effect :=
  [.longRunningQuery (_create_table_sql table_name columns schema)]

/-- The `has_table` (io/context.py): probe a qualified table query, reporting
failure as `false`. -/
def has_table (env : RemoteEnv) (table_name : String) (schema : Option String) :
    List Effect × Bool :=
  let (e1, sch) :=
    match schema with
    | some s => ([], s)
    | Option.none => get_schema env
  let (e2, chk) := _check_exists env (compute_query_from_table table_name sch)
  (e1 ++ e2, match chk with | .ok _ => true | .error _ => false)

/-- The parameter list of `has_table` (io/context.py line 71): `table_name`
and `schema`, both required — `schema` has no default value. -/
def has_table_params : List String := ["table_name", "schema"]

/-- The number of arguments `copy_from` supplies at its
`self.has_table(table_name)` call site (io/context.py line 58). -/
def copy_from_has_table_args : Nat := 1

/-- The Python call `self.has_table(table_name)` made by `copy_from`: one
argument is supplied for the two required parameters of `has_table`, so
argument binding fails and Python raises `TypeError` before `has_table`'s
body runs.  (Were all parameters bound, the call would run `has_table`.) -/
def copy_from_has_table_call (env : RemoteEnv) (table_name : String) :
    List Effect × Except PyError Bool :=
  if copy_from_has_table_args < has_table_params.length then
    ([], .error (.typeError
      "has_table() missing 1 required positional argument: 'schema'"))
  else
    let (e, b) := has_table env table_name Option.none
    (e, .ok b)

/-- The local dataframe uploaded by `copy_from`: column names, the optional
index name, and per row an index label plus cells aligned with `columns`. -/
structure LocalDf where
  columns : List String
  indexName : Option String
  rows : List (PyVal × List PyVal)
deriving DecidableEq, Repr

/-- The `df.at[index, col]` (model). -/
def dfAt (df : LocalDf) (cells : List PyVal) (col : String) : PyVal :=
  cells.getD (df.columns.indexOf col) .pyNone

/-- The value `_rows` feeds into the field for column `c`: a cell when the
dataframe has the column; the row's index label when `c` names the (named)
row index; `none` (Python `continue`) for a filtered-out column. -/
def _row_value (df : LocalDf) (index : PyVal) (cells : List PyVal)
    (c : DfColumn) : Option PyVal :=
  if c.dataframe ∈ df.columns then some (dfAt df cells c.dataframe)
  else
    match df.indexName with
    | some n => if c.dataframe = n then some index else Option.none
    | Option.none => Option.none

/-- One encoded field of `_rows` (io/context.py): for the flagged geometry
column decode via `decode_geometry` and re-encode truthy geometries as
`SRID=4326;<wkt>`, falsy ones as the empty string; then `encode_row`. -/
def _row_field (df : LocalDf) (info : DataframeColumnsInfo) (index : PyVal)
    (cells : List PyVal) (c : DfColumn) : Except PyError (Option (List Nat)) :=
  match _row_value df index cells c with
  | Option.none => .ok Option.none
  | some val =>
    match info.geom_column with
    | some gc =>
      if c.dataframe = gc then do
        let geom ← decode_geometry val info.enc_type
        if pyTruthy geom then do
          let w ← pyWkt geom
          pure (some (encode_row (.pyStr ("SRID=4326;" ++ w))))
        else
          pure (some (encode_row (.pyStr "")))
      else pure (some (encode_row val))
    | Option.none => pure (some (encode_row val))

/-- The `row_data` list of one `_rows` iteration: encoded fields of the
columns that are not skipped. -/
def _row_fields (df : LocalDf) (info : DataframeColumnsInfo) (index : PyVal)
    (cells : List PyVal) : List DfColumn → Except PyError (List (List Nat))
  | [] => .ok []
  | c :: rest => do
    let f ← _row_field df info index cells c
    let tail ← _row_fields df info index cells rest
    match f with
    | some bs => pure (bs :: tail)
    | Option.none => pure tail

/-- The `_rows` (io/context.py): the generated byte records —
`b'|'.join(row_data) + b'\n'` per dataframe row; a decode failure surfaces
when the generator is consumed. -/
def _rows (df : LocalDf) (info : DataframeColumnsInfo) :
    Except PyError (List (List Nat)) :=
  go df.rows
where
  go : List (PyVal × List PyVal) → Except PyError (List (List Nat))
    | [] => .ok []
    | (idx, cells) :: rest => do
      let fs ← _row_fields df info idx cells info.columns
      let tail ← go rest
      pure ((List.intercalate ['|'.toNat] fs ++ ['\n'.toNat]) :: tail)

/-- The `_copy_from` (io/context.py): open the bulk-load channel once with the
(stripped) COPY FROM statement and stream the encoded rows through it. -/
def _copy_from (cdf : LocalDf) (table_name : String)
    (info : DataframeColumnsInfo) : List Effect × Except PyError Unit :=
  ([.copyFromChannel ("COPY " ++ table_name ++ "("
      ++ String.intercalate "," (info.columns.map (fun c => c.database))
      ++ ") FROM stdin WITH (FORMAT csv, DELIMITER '|', NULL '" ++ PG_NULL ++ "');")],
    match _rows cdf info with
    | .ok _ => .ok ()
    | .error e => .error e)

/-- The `copy_from` (io/context.py).  The `DataframeColumnsInfo(cdf)`
classification comes from code not under src/ and is taken as the `info`
argument.  Branching follows the source: `replace` short-circuits the
`or`, so only then is a table created; every other `if_exists` value first
evaluates `not self.has_table(table_name)`, whose argument binding raises
`TypeError` (see `copy_from_has_table_call`). -/
def copy_from (env : RemoteEnv) (cdf : LocalDf) (info : DataframeColumnsInfo)
    (table_name : String) (if_exists : String) : List Effect × Except PyError Unit :=
  let (e1, schema) := get_schema env
  let tn := normalize_name table_name
  if if_exists = "replace" then
    let e2 := _create_table tn info.columns schema
    let (e3, res) := _copy_from cdf tn info
    (e1 ++ e2 ++ e3, res)
  else
    match copy_from_has_table_call env tn with
    | (e2, .error err) => (e1 ++ e2, .error err)
    | (e2, .ok b) =>
      if !b then
        let e3 := _create_table tn info.columns schema
        let (e4, res) := _copy_from cdf tn info
        (e1 ++ e2 ++ e3 ++ e4, res)
      else if if_exists = "fail" then
        (e1 ++ e2, .error (.exception
          ("Table \"" ++ schema ++ "." ++ tn ++ "\" already exists in CARTO. "
            ++ "Please choose a different `table_name` or use "
            ++ "if_exists=\"replace\" to overwrite it")))
      else
        let (e3, res) := _copy_from cdf tn info
        (e1 ++ e2 ++ e3, res)

/-- The `_compute_geometry_from_geom` (data/utils.py): the encoding is detected
from the first element only (`geom[0]`), and that single tag is used to
decode every element of the column. -/
def _compute_geometry_from_geom (geom : List PyVal) : Except PyError (List PyVal) :=
  match geom with
  | [] => .error .indexError
  | first_el :: _ => do
    let enc_type ← detect_encoding_type first_el
    geom.mapM (fun g => decode_geometry g enc_type)

/-! ## Trace observations used by the retry and limit claims -/

/-- Number of streaming download attempts recorded in a trace. -/
def copyAttemptCount (tr : List Effect) : Nat :=
  (tr.filter (fun e => match e with | .copyToChannel _ => true | _ => false)).length

/-- The backoff sleeps recorded in a trace, in order. -/
def sleepsOf (tr : List Effect) : List Nat :=
  tr.filterMap (fun e => match e with | .sleep s => some s | _ => Option.none)

/-- The trace of a retry run: one download attempt before each sleep and one
final attempt. -/
def retryTrace (q : String) (ras : List Nat) : List Effect :=
  ras.flatMap (fun ra => [.copyToChannel q, .sleep ra]) ++ [.copyToChannel q]

theorem copyAttemptCount_retryTrace (q : String) (ras : List Nat) :
    copyAttemptCount (retryTrace q ras) = ras.length + 1 := by
  induction ras with
  | nil => rfl
  | cons ra rest ih =>
    simp only [retryTrace, List.flatMap_cons, List.cons_append, List.append_assoc] at ih ⊢
    simp only [copyAttemptCount, List.filter_cons] at ih ⊢
    simp_all

theorem sleepsOf_retryTrace (q : String) (ras : List Nat) :
    sleepsOf (retryTrace q ras) = ras := by
  induction ras with
  | nil => rfl
  | cons ra rest ih =>
    simp only [retryTrace, List.flatMap_cons, List.cons_append, List.append_assoc] at ih ⊢
    simp only [sleepsOf, List.filterMap_cons] at ih ⊢
    simp_all

theorem retryTrace_cons (q : String) (ra0 : Nat) (ras : List Nat) :
    retryTrace q (ra0 :: ras)
      = .copyToChannel q :: .sleep ra0 :: retryTrace q ras := by
  simp [retryTrace]

/-- A run with `k ≤ r` rate-limited attempts followed by a success: the trace
is `k` (attempt, sleep) pairs and one final attempt, the remaining budget is
`r - k`, and the stream result is the success. -/
theorem copy_to_stream_ok (stream : Nat → CopyAttempt) (q : String) (ra : Nat → Nat)
    (csv : Csv) :
    ∀ (k a r : Nat), k ≤ r →
      (∀ i, i < k → stream (a + i) = .rateLimited (ra (a + i))) →
      stream (a + k) = .ok csv →
      _copy_to_stream stream q a r
        = (retryTrace q ((List.range k).map (fun i => ra (a + i))), r - k, .ok csv) := by
  intro k
  induction k with
  | zero =>
    intro a r _ _ hs
    rw [Nat.add_zero] at hs
    unfold _copy_to_stream
    rw [hs]
    simp [retryTrace]
  | succ k ih =>
    intro a r hk hf hs
    cases r with
    | zero => omega
    | succ rr =>
      have hs0 : stream a = .rateLimited (ra a) := by
        have h := hf 0 (by omega)
        rwa [Nat.add_zero] at h
      have hf1 : ∀ i, i < k → stream ((a + 1) + i) = .rateLimited (ra ((a + 1) + i)) := by
        intro i hi
        have h := hf (i + 1) (by omega)
        have heq : a + (i + 1) = (a + 1) + i := by omega
        rwa [heq] at h
      have hs1 : stream ((a + 1) + k) = .ok csv := by
        have heq : (a + 1) + k = a + (k + 1) := by omega
        rw [heq]
        exact hs
      have hrec := ih (a + 1) rr (by omega) hf1 hs1
      have htr : (List.range (k + 1)).map (fun i => ra (a + i))
          = ra a :: (List.range k).map (fun i => ra ((a + 1) + i)) := by
        rw [List.range_succ_eq_map, List.map_cons, List.map_map]
        have hfun : ((fun i => ra (a + i)) ∘ Nat.succ) = (fun i => ra ((a + 1) + i)) := by
          funext i
          simp only [Function.comp]
          congr 1
          omega
        rw [hfun, Nat.add_zero]
      have hb : rr + 1 - (k + 1) = rr - k := by omega
      unfold _copy_to_stream
      rw [hs0]
      simp only [hrec, htr, retryTrace_cons, hb]

/-- A run in which every attempt is rate-limited: `r` sleeps, `r + 1`
attempts, budget exhausted, and the final rate-limit error re-raised. -/
theorem copy_to_stream_exhaust (stream : Nat → CopyAttempt) (q : String) (ra : Nat → Nat) :
    ∀ (r a : Nat),
      (∀ i, i ≤ r → stream (a + i) = .rateLimited (ra (a + i))) →
      _copy_to_stream stream q a r
        = (retryTrace q ((List.range r).map (fun i => ra (a + i))), 0,
           .error (.rateLimit (ra (a + r)))) := by
  intro r
  induction r with
  | zero =>
    intro a hf
    have hs0 : stream a = .rateLimited (ra a) := by
      have h := hf 0 (by omega)
      rwa [Nat.add_zero] at h
    unfold _copy_to_stream
    rw [hs0]
    simp [retryTrace]
  | succ r ih =>
    intro a hf
    have hs0 : stream a = .rateLimited (ra a) := by
      have h := hf 0 (by omega)
      rwa [Nat.add_zero] at h
    have hf1 : ∀ i, i ≤ r → stream ((a + 1) + i) = .rateLimited (ra ((a + 1) + i)) := by
      intro i hi
      have h := hf (i + 1) (by omega)
      have heq : a + (i + 1) = (a + 1) + i := by omega
      rwa [heq] at h
    have hrec := ih (a + 1) hf1
    have htr : (List.range (r + 1)).map (fun i => ra (a + i))
        = ra a :: (List.range r).map (fun i => ra ((a + 1) + i)) := by
      rw [List.range_succ_eq_map, List.map_cons, List.map_map]
      have hfun : ((fun i => ra (a + i)) ∘ Nat.succ) = (fun i => ra ((a + 1) + i)) := by
        funext i
        simp only [Function.comp]
        congr 1
        omega
      rw [hfun, Nat.add_zero]
    have hra : (a + 1) + r = a + (r + 1) := by omega
    unfold _copy_to_stream
    rw [hs0]
    simp only [hrec, htr, retryTrace_cons, hra]

theorem _copy_to_components (env : RemoteEnv) (query : String) (columns : List Column)
    (r : Nat) :
    _copy_to env query columns r
      = ((_copy_to_stream env.stream (copy_query_sql query) 0 r).1,
         match (_copy_to_stream env.stream (copy_query_sql query) 0 r).2.2 with
         | .error e => .error e
         | .ok csv => copy_to_postprocess columns csv) := by
  unfold _copy_to
  rcases h : _copy_to_stream env.stream (copy_query_sql query) 0 r with ⟨tr, rt, res⟩
  simp [h]

/-- C2: with retry budget `r`, a download whose first `k ≤ r` transport
attempts are rate-limited and whose attempt `k` succeeds performs `k + 1`
attempts, sleeps exactly the `k` server-specified backoffs, arrives at the
final attempt with `r - k` budget remaining (`k` units consumed), and
completes successfully; a download whose every attempt is rate-limited
performs exactly `r + 1` attempts, sleeps `r` times, and re-raises the
rate-limit error to the caller. -/
theorem claimC2_rate_limit_retry (env : RemoteEnv) (query : String)
    (columns : List Column) (r : Nat) (ra : Nat → Nat) :
    (∀ (k : Nat) (csv : Csv), k ≤ r →
      (∀ i, i < k → env.stream i = .rateLimited (ra i)) →
      env.stream k = .ok csv →
      (∀ n, obtain_index_col columns = some n → n ∈ csv.header) →
      copyAttemptCount (_copy_to env query columns r).1 = k + 1
      ∧ sleepsOf (_copy_to env query columns r).1 = (List.range k).map ra
      ∧ (_copy_to_stream env.stream (copy_query_sql query) 0 r).2.1 = r - k
      ∧ ∃ df, (_copy_to env query columns r).2 = .ok df)
    ∧ ((∀ i, env.stream i = .rateLimited (ra i)) →
      copyAttemptCount (_copy_to env query columns r).1 = r + 1
      ∧ sleepsOf (_copy_to env query columns r).1 = (List.range r).map ra
      ∧ (_copy_to env query columns r).2 = .error (.rateLimit (ra r))) := by
  constructor
  · intro k csv hk hf hs hidx
    have hf0 : ∀ i, i < k → env.stream (0 + i) = .rateLimited (ra (0 + i)) := by
      intro i hi
      rw [Nat.zero_add]
      exact hf i hi
    have hs0 : env.stream (0 + k) = .ok csv := by
      rw [Nat.zero_add]
      exact hs
    have hstr := copy_to_stream_ok env.stream (copy_query_sql query) ra csv k 0 r hk hf0 hs0
    have hmap : ((List.range k).map (fun i => ra (0 + i))) = (List.range k).map ra := by
      apply List.map_congr_left
      intro i _
      rw [Nat.zero_add]
    rw [hmap] at hstr
    have hcomp := _copy_to_components env query columns r
    rw [hstr] at hcomp
    refine ⟨?_, ?_, ?_, ?_⟩
    · rw [hcomp]
      simp [copyAttemptCount_retryTrace]
    · rw [hcomp]
      simp [sleepsOf_retryTrace]
    · rw [hstr]
    · rw [hcomp]
      show ∃ df, copy_to_postprocess columns csv = .ok df
      rcases hic : obtain_index_col columns with _ | n
      · exact ⟨read_csv csv, by simp [copy_to_postprocess, hic]⟩
      · have hn : n ∈ csv.header := hidx n hic
        have hv : getCol (read_csv csv) n
            = some (csv.rows.map (fun row => row.getD (csv.header.indexOf n) "")) := by
          simp [getCol, read_csv, hn]
        refine ⟨{ columns := csv.header, rows := csv.rows,
                  index := some (csv.rows.map (fun row => row.getD (csv.header.indexOf n) "")),
                  indexName := Option.none }, ?_⟩
        simp only [copy_to_postprocess, hic, hv]
        simp [read_csv]
  · intro hall
    have hf0 : ∀ i, i ≤ r → env.stream (0 + i) = .rateLimited (ra (0 + i)) := by
      intro i _
      rw [Nat.zero_add]
      exact hall i
    have hstr := copy_to_stream_exhaust env.stream (copy_query_sql query) ra r 0 hf0
    have hmap : ((List.range r).map (fun i => ra (0 + i))) = (List.range r).map ra := by
      apply List.map_congr_left
      intro i _
      rw [Nat.zero_add]
    rw [hmap, Nat.zero_add] at hstr
    have hcomp := _copy_to_components env query columns r
    rw [hstr] at hcomp
    refine ⟨?_, ?_, ?_⟩
    · rw [hcomp]
      simp [copyAttemptCount_retryTrace]
    · rw [hcomp]
      simp [sleepsOf_retryTrace]
    · rw [hcomp]

def c2Csv : Csv := { header := ["value"], rows := [] }

def c2SuccEnv : RemoteEnv :=
  { currentSchema := "public", existsOk := fun _ => true, columnsOf := fun _ => [],
    stream := fun i => if i < 2 then .rateLimited 5 else .ok c2Csv }

def c2FailEnv : RemoteEnv :=
  { currentSchema := "public", existsOk := fun _ => true, columnsOf := fun _ => [],
    stream := fun _ => .rateLimited 7 }

/-- Witness for C2: with budget 3, a download rate-limited twice then
succeeding sleeps twice and keeps one unit of budget; an always-rate-limited
download makes 4 attempts and re-raises the error. -/
theorem claimC2_rate_limit_retry_witness :
    (copyAttemptCount (_copy_to c2SuccEnv "q" [] 3).1 = 3
      ∧ sleepsOf (_copy_to c2SuccEnv "q" [] 3).1 = [5, 5]
      ∧ (_copy_to_stream c2SuccEnv.stream (copy_query_sql "q") 0 3).2.1 = 1
      ∧ ∃ df, (_copy_to c2SuccEnv "q" [] 3).2 = .ok df)
    ∧ (copyAttemptCount (_copy_to c2FailEnv "q" [] 3).1 = 4
      ∧ sleepsOf (_copy_to c2FailEnv "q" [] 3).1 = [7, 7, 7]
      ∧ (_copy_to c2FailEnv "q" [] 3).2 = .error (.rateLimit 7)) := by
  constructor
  · have h := (claimC2_rate_limit_retry c2SuccEnv "q" [] 3 (fun _ => 5)).1 2 c2Csv
      (by decide) (by decide) (by decide)
      (by intro n hn; simp [obtain_index_col] at hn)
    obtain ⟨h1, h2, h3, h4⟩ := h
    exact ⟨h1, by rw [h2]; rfl, h3, h4⟩
  · have h := (claimC2_rate_limit_retry c2FailEnv "q" [] 3 (fun _ => 7)).2
      (fun i => rfl)
    obtain ⟨h1, h2, h3⟩ := h
    exact ⟨h1, by rw [h2]; rfl, h3⟩

/-! ## C5 and C9: the projection query and the LIMIT clause -/

theorem copyAttemptCount_append (a b : List Effect) :
    copyAttemptCount (a ++ b) = copyAttemptCount a + copyAttemptCount b := by
  simp [copyAttemptCount, List.filter_append]

theorem copyAttemptCount_compute_query (env : RemoteEnv) (source : String)
    (schema : Option String) :
    copyAttemptCount (_compute_query env source schema).1 = 0 := by
  unfold _compute_query get_schema
  rcases schema with _ | s
  · split <;> rfl
  · split <;> rfl

theorem filter_name_map (columns : List Column) (p : String → Bool) :
    ((columns.filter (fun c => p c.name)).map (fun c => c.name))
      = (columns.map (fun c => c.name)).filter p := by
  induction columns with
  | nil => rfl
  | cons c rest ih =>
    by_cases hc : p c.name
    · simp [List.filter_cons, hc, ih]
    · simp [List.filter_cons, hc, ih]

/-- C9: the projection lists every resolved column in original order, except
that `the_geom_webmercator` is included exactly when
`keep_the_geom_webmercator` is true; no other column is added or removed,
and with no limit the built query is exactly the projection statement. -/
theorem claimC9_projection_columns (query : String) (columns : List Column) (keep : Bool) :
    projected_columns columns keep
      = (if keep then columns.map (fun c => c.name)
         else (columns.map (fun c => c.name)).filter
            (fun n => n != "the_geom_webmercator"))
    ∧ (projected_columns columns keep).Sublist (columns.map (fun c => c.name))
    ∧ _get_copy_query query columns .none keep = .ok (projection_query query columns keep) := by
  refine ⟨?_, ?_, rfl⟩
  · cases keep with
    | true => simp [projected_columns]
    | false =>
      simp only [projected_columns, Bool.or_false]
      exact filter_name_map columns (fun n => n != "the_geom_webmercator")
  · exact List.Sublist.map _ (List.filter_sublist _)

theorem string_append_assoc (a b c : String) : a ++ b ++ c = a ++ (b ++ c) := by
  rcases a with ⟨la⟩
  rcases b with ⟨lb⟩
  rcases c with ⟨lc⟩
  show String.mk (la ++ lb ++ lc) = String.mk (la ++ (lb ++ lc))
  rw [List.append_assoc]

theorem postprocess_rows (columns : List Column) (csv : Csv) (df : DataFrame)
    (h : copy_to_postprocess columns csv = .ok df) : df.rows = csv.rows := by
  simp only [copy_to_postprocess] at h
  rcases hic : obtain_index_col columns with _ | n
  · rw [hic] at h
    cases h
    rfl
  · rw [hic] at h
    rcases hg : getCol (read_csv csv) n with _ | vals
    · simp only [hg] at h
      exact Except.noConfusion h
    · simp only [hg] at h
      cases h
      rfl

/-- C5: a negative or non-integer `limit` is a fatal `ValueError` raised
before any streaming download attempt; `limit = 0` appends exactly
`LIMIT 0` and the call returns a zero-row table without error; `limit =
None` appends no LIMIT clause. -/
theorem claimC5_limit_handling :
    (∀ (env : RemoteEnv) (source : String) (schema : Option String) (r : Nat)
        (keep : Bool) (limit : PyLimit),
      (match limit with | .int n => n < 0 | .other => True | .none => False) →
      env.existsOk (_compute_query env source schema).2 = true →
      (copy_to env source schema limit r keep).2
          = .error (.valueError "`limit` parameter must an integer >= 0")
        ∧ copyAttemptCount (copy_to env source schema limit r keep).1 = 0)
    ∧ (∀ (query : String) (columns : List Column) (keep : Bool),
        _get_copy_query query columns (.int 0) keep
          = .ok (projection_query query columns keep ++ " LIMIT 0"))
    ∧ (∀ (env : RemoteEnv) (source : String) (schema : Option String) (r : Nat)
        (keep : Bool) (hdr : List String),
      env.existsOk (_compute_query env source schema).2 = true →
      env.stream 0 = .ok { header := hdr, rows := [] } →
      (∀ n, obtain_index_col (env.columnsOf (_compute_query env source schema).2) = some n
          → n ∈ hdr) →
      ∃ df, (copy_to env source schema (.int 0) r keep).2 = .ok df ∧ df.rows = [])
    ∧ (∀ (query : String) (columns : List Column) (keep : Bool),
        _get_copy_query query columns .none keep = .ok (projection_query query columns keep)) := by
  refine ⟨?_, ?_, ?_, ?_⟩
  · intro env source schema r keep limit hlim hex
    rcases h1 : _compute_query env source schema with ⟨e1, q⟩
    have hex2 : env.existsOk q = true := by
      rw [h1] at hex
      exact hex
    have hbad : _get_copy_query q (env.columnsOf q) limit keep
        = .error (.valueError "`limit` parameter must an integer >= 0") := by
      rcases limit with _ | n | _
      · exact hlim.elim
      · have : ¬(n ≥ 0) := by omega
        simp [_get_copy_query, this]
      · rfl
    unfold copy_to
    rw [h1]
    simp only [_check_exists, _get_columns, hex2, if_true, hbad]
    refine ⟨by trivial, ?_⟩
    simp only [copyAttemptCount_append]
    have hc1 : copyAttemptCount e1 = 0 := by
      have := copyAttemptCount_compute_query env source schema
      rw [h1] at this
      exact this
    rw [hc1]
    rfl
  · intro query columns keep
    show (Except.ok (projection_query query columns keep ++ " LIMIT " ++ toString (0 : Int))
        : Except PyError String) = _
    rw [string_append_assoc]
    rfl
  · intro env source schema r keep hdr hex hstream hidx
    rcases h1 : _compute_query env source schema with ⟨e1, q⟩
    have hex2 : env.existsOk q = true := by
      rw [h1] at hex
      exact hex
    have hidx2 : ∀ n, obtain_index_col (env.columnsOf q) = some n → n ∈ hdr := by
      rw [h1] at hidx
      exact hidx
    have hgood : _get_copy_query q (env.columnsOf q) (.int 0) keep
        = .ok (projection_query q (env.columnsOf q) keep ++ " LIMIT 0") := by
      show (Except.ok (projection_query q (env.columnsOf q) keep ++ " LIMIT "
          ++ toString (0 : Int)) : Except PyError String) = _
      rw [string_append_assoc]
      rfl
    have hretry := (claimC2_rate_limit_retry env
      (projection_query q (env.columnsOf q) keep ++ " LIMIT 0") (env.columnsOf q) r
      (fun _ => 0)).1 0 { header := hdr, rows := [] } (by omega)
      (by intro i hi; omega) hstream hidx2
    obtain ⟨-, -, -, df, hdf⟩ := hretry
    refine ⟨df, ?_, ?_⟩
    · unfold copy_to
      rw [h1]
      simp only [_check_exists, _get_columns, hex2, if_true, hgood]
      exact hdf
    · -- the post-processed frame keeps the (empty) row list
      have hcomp := _copy_to_components env
        (projection_query q (env.columnsOf q) keep ++ " LIMIT 0") (env.columnsOf q) r
      have hstr := copy_to_stream_ok env.stream
        (copy_query_sql (projection_query q (env.columnsOf q) keep ++ " LIMIT 0"))
        (fun _ => 0) { header := hdr, rows := [] } 0 0 r (by omega)
        (by intro i hi; omega) (by simpa using hstream)
      rw [hstr] at hcomp
      rw [hcomp] at hdf
      have hpost : copy_to_postprocess (env.columnsOf q) { header := hdr, rows := [] }
          = .ok df := hdf
      exact postprocess_rows _ _ _ hpost
  · intro query columns keep
    rfl

def c5Env : RemoteEnv :=
  { currentSchema := "public", existsOk := fun _ => true,
    columnsOf := fun _ => [{ name := "a", dbType := "text", isIndex := false }],
    stream := fun _ => .ok { header := ["a"], rows := [] } }

/-- Witness for C5: `limit = -1` raises before any download attempt;
`limit = 0` returns a zero-row table. -/
theorem claimC5_limit_handling_witness :
    ((copy_to c5Env "SELECT 1" Option.none (.int (-1)) 3 false).2
        = .error (.valueError "`limit` parameter must an integer >= 0")
      ∧ copyAttemptCount (copy_to c5Env "SELECT 1" Option.none (.int (-1)) 3 false).1 = 0)
    ∧ (∃ df, (copy_to c5Env "SELECT 1" Option.none (.int 0) 3 false).2 = .ok df
        ∧ df.rows = []) := by
  constructor
  · exact claimC5_limit_handling.1 c5Env "SELECT 1" Option.none 3 false (.int (-1))
      (by decide) rfl
  · refine claimC5_limit_handling.2.2.1 c5Env "SELECT 1" Option.none 3 false ["a"]
      rfl rfl ?_
    intro n hn
    have h0 : obtain_index_col (c5Env.columnsOf (_compute_query c5Env "SELECT 1" Option.none).2)
        = Option.none := rfl
    rw [h0] at hn
    exact Option.noConfusion hn

/-! ## C6: index promotion after download -/

def c6Columns : List Column :=
  [{ name := "cartodb_id", dbType := "number", isIndex := true },
   { name := "value", dbType := "string", isIndex := false }]

def c6Csv : Csv := { header := ["cartodb_id", "value"], rows := [["1", "a"], ["2", "b"]] }

def c6Env : RemoteEnv :=
  { currentSchema := "public", existsOk := fun _ => true,
    columnsOf := fun _ => c6Columns, stream := fun _ => .ok c6Csv }

/-- C6 (code bug): on a download whose ColumnSet designates the index column
`cartodb_id`, `copy_to` sets the returned frame's index to that column's
values and clears the index name — but `df.index = df[index_col]` does not
drop the column, so `cartodb_id` is still among the ordinary data columns. -/
theorem claimC6_index_column_kept :
    (copy_to c6Env "SELECT * FROM t" Option.none .none 3 false).2
      = .ok { columns := ["cartodb_id", "value"],
              rows := [["1", "a"], ["2", "b"]],
              index := some ["1", "2"],
              indexName := Option.none }
    ∧ ∀ df, (copy_to c6Env "SELECT * FROM t" Option.none .none 3 false).2 = .ok df →
        "cartodb_id" ∈ df.columns := by
  constructor
  · rfl
  · intro df hdf
    have h1 : (copy_to c6Env "SELECT * FROM t" Option.none .none 3 false).2
        = .ok { columns := ["cartodb_id", "value"],
                rows := [["1", "a"], ["2", "b"]],
                index := some ["1", "2"],
                indexName := Option.none } := rfl
    rw [h1] at hdf
    cases hdf
    decide

/-! ## C8: table creation is one transaction -/

/-- C8: every table creation issues exactly one long-running query, of the
single-transaction form `BEGIN; DROP TABLE IF EXISTS t; CREATE TABLE t
(col type, ...); SELECT CDB_CartodbfyTable('schema', 't'); COMMIT;`, so the
drop, create and cartodbfy statements execute in a single transaction. -/
theorem claimC8_create_table_transaction :
    (∀ (t : String) (cols : List DfColumn) (schema : String),
      _create_table t cols schema
        = [.longRunningQuery ("BEGIN; DROP TABLE IF EXISTS " ++ t ++ "; CREATE TABLE "
            ++ t ++ " ("
            ++ String.intercalate ", " (cols.map (fun c => c.database ++ " " ++ c.database_type))
            ++ "); SELECT CDB_CartodbfyTable('" ++ schema ++ "', '" ++ t ++ "'); COMMIT;")])
    ∧ (∀ (env : RemoteEnv) (cdf : LocalDf) (info : DataframeColumnsInfo) (t : String),
      (copy_from env cdf info t "replace").1.filter
          (fun e => match e with | .longRunningQuery _ => true | _ => false)
        = [.longRunningQuery
            (_create_table_sql (normalize_name t) info.columns env.currentSchema)]) := by
  have hlit1 : ("BEGIN; DROP TABLE IF EXISTS " : String)
      = "BEGIN; " ++ "DROP TABLE IF EXISTS " := rfl
  have hlit2 : ("; CREATE TABLE " : String) = "; " ++ "CREATE TABLE " := rfl
  have hlit3 : ("); SELECT CDB_CartodbfyTable('" : String)
      = ")" ++ ("; " ++ "SELECT CDB_CartodbfyTable('") := rfl
  have hlit4 : ("'); COMMIT;" : String) = "')" ++ "; COMMIT;" := rfl
  constructor
  · intro t cols schema
    unfold _create_table _create_table_sql _drop_table_query _create_table_query
      _cartodbfy_query
    rw [hlit1, hlit2, hlit3, hlit4]
    simp only [string_append_assoc]
  · intro env cdf info t
    simp [copy_from, get_schema, _create_table, _copy_from, List.filter_append, List.filter]

/-! ## C1: `copy_from` with `if_exists='fail'` -/

def c1Env : RemoteEnv :=
  { currentSchema := "public", existsOk := fun _ => true,
    columnsOf := fun _ => [], stream := fun _ => .rateLimited 0 }

def c1Df : LocalDf := { columns := ["value"], indexName := Option.none, rows := [] }

def c1Info : DataframeColumnsInfo :=
  { columns := [{ database := "value", database_type := "text", dataframe := "value" }],
    geom_column := Option.none, enc_type := "" }

/-- C1 (code bug): `copy_from` with `if_exists='fail'` against an existing
table does not raise `TableAlreadyExistsError`: evaluating
`not self.has_table(table_name)` supplies one argument for the two required
parameters of `has_table` (io/context.py line 71 declares `schema` with no
default), so Python raises `TypeError` before any existence check.  No
DROP/CREATE statement is issued before the error. -/
theorem claimC1_fail_mode_type_error :
    copy_from c1Env c1Df c1Info "mytable" "fail"
      = ([.query "SELECT current_schema()"],
         .error (.typeError "has_table() missing 1 required positional argument: 'schema'"))
    ∧ (copy_from c1Env c1Df c1Info "mytable" "fail").1.filter
        (fun e => match e with
          | .longRunningQuery _ => true
          | .copyFromChannel _ => true
          | _ => false) = [] := by
  exact ⟨rfl, rfl⟩

/-! ## C7: the serialized geometry field -/

theorem escapeChar_id {cs : List Char}
    (h : ∀ c ∈ cs, ¬c = '|' ∧ ¬c = '\n' ∧ ¬c = '\\') :
    cs.flatMap escapeChar = cs := by
  induction cs with
  | nil => rfl
  | cons c rest ih =>
    have hc := h c (by simp)
    have hrest := ih (fun x hx => h x (by simp [hx]))
    simp [escapeChar, hc.1, hc.2.1, hc.2.2, hrest]

theorem encode_row_plain {s : String}
    (h : ∀ c ∈ s.data, ¬c = '|' ∧ ¬c = '\n' ∧ ¬c = '\\') :
    encode_row (.pyStr s) = strBytes s := by
  show strBytes (String.mk (s.data.flatMap escapeChar)) = strBytes s
  rw [escapeChar_id h]

theorem srid_wkt_chars_plain (g : Geom) :
    ∀ c ∈ ("SRID=4326;" ++ wktDump g).data, ¬c = '|' ∧ ¬c = '\n' ∧ ¬c = '\\' := by
  intro c hc
  rw [String.data_append] at hc
  rcases List.mem_append.mp hc with h1 | h2
  · exact (by decide : ∀ x ∈ "SRID=4326;".data, ¬x = '|' ∧ ¬x = '\n' ∧ ¬x = '\\') c h1
  · obtain ⟨-, hn, hbar, hbsl⟩ := alpha_props c (wktChars_mem_alpha h2)
    exact ⟨hbar, hn, hbsl⟩

/-- C7: in the row encoder, a decodable non-null geometry value in the
flagged geometry column is emitted exactly as `SRID=4326;` followed by the
geometry's WKT text, and a value decoding to a null/empty geometry is
emitted as the empty string — never as the reserved null sentinel. -/
theorem claimC7_geometry_field (df : LocalDf) (info : DataframeColumnsInfo)
    (index : PyVal) (cells : List PyVal) (c : DfColumn) (gc : String) (v : PyVal)
    (hgc : info.geom_column = some gc) (hcg : c.dataframe = gc)
    (hval : _row_value df index cells c = some v) :
    (∀ g : Geom, decode_geometry v info.enc_type = .ok (.pyGeom g) →
      pyTruthy (.pyGeom g) = true →
      _row_field df info index cells c
        = .ok (some (strBytes ("SRID=4326;" ++ wktDump g))))
    ∧ (∀ w : PyVal, decode_geometry v info.enc_type = .ok w → pyTruthy w = false →
      _row_field df info index cells c = .ok (some (strBytes ""))
      ∧ strBytes "" ≠ strBytes PG_NULL) := by
  constructor
  · intro g hdec htr
    simp [_row_field, hval, hgc, hcg, hdec, htr, pyWkt,
      encode_row_plain (srid_wkt_chars_plain g), bind, Except.bind, Functor.map,
      Except.map, pure, Except.pure]
  · intro w hdec hfalse
    refine ⟨?_, by decide⟩
    simp only [_row_field, hval, hgc, hcg, hdec, hfalse, bind, Except.bind,
      if_pos, eq_self_iff_true, if_true, Bool.false_eq_true, if_false]
    rfl

def c7Col : DfColumn :=
  { database := "the_geom", database_type := "geometry", dataframe := "geometry" }

def c7Df : LocalDf :=
  { columns := ["geometry"], indexName := Option.none,
    rows := [(.pyInt 0, [.pyStr "POINT (1 2)"])] }

def c7Info : DataframeColumnsInfo :=
  { columns := [c7Col], geom_column := some "geometry", enc_type := "wkt" }

/-- Witness for C7: a WKT point cell is emitted as `SRID=4326;<wkt>`, and an
empty-geometry cell as the empty string. -/
theorem claimC7_geometry_field_witness :
    _row_field c7Df c7Info (.pyInt 0) [.pyStr "POINT (1 2)"] c7Col
      = .ok (some (strBytes ("SRID=4326;" ++ wktDump (.point 1 2))))
    ∧ (_row_field c7Df c7Info (.pyInt 0) [.pyStr "LINESTRING EMPTY"] c7Col
        = .ok (some (strBytes ""))
      ∧ strBytes "" ≠ strBytes PG_NULL) := by
  constructor
  · exact (claimC7_geometry_field c7Df c7Info (.pyInt 0) [.pyStr "POINT (1 2)"] c7Col
      "geometry" (.pyStr "POINT (1 2)") rfl rfl (by decide)).1 (.point 1 2) (by decide) rfl
  · exact (claimC7_geometry_field c7Df c7Info (.pyInt 0) [.pyStr "LINESTRING EMPTY"] c7Col
      "geometry" (.pyStr "LINESTRING EMPTY") rfl rfl (by decide)).2
      (.pyGeom (.lineString [])) (by decide) rfl

/-! ## C10: single-tag decoding of a geometry column -/

/-- C10: `_compute_geometry_from_geom` detects the encoding from the first
element only and decodes every element of the column with that single tag,
never re-detecting per value. -/
theorem claimC10_first_element_encoding (gs : List PyVal) (first : PyVal)
    (rest : List PyVal) (t : String)
    (h1 : gs = first :: rest) (h2 : detect_encoding_type first = .ok t) :
    _compute_geometry_from_geom gs = gs.mapM (fun g => decode_geometry g t) := by
  subst h1
  show (do
      let enc_type ← detect_encoding_type first
      (first :: rest).mapM (fun g => decode_geometry g enc_type))
    = (first :: rest).mapM (fun g => decode_geometry g t)
  rw [h2]
  rfl

/-- Witness for C10: a column whose first element is WKT but whose second is
hex text is decoded entirely with the `wkt` tag — the second element's own
encoding (`wkb-hex-ascii`) is ignored and the whole decode fails. -/
theorem claimC10_first_element_encoding_witness :
    detect_encoding_type (.pyStr "POINT (1 2)") = .ok "wkt"
    ∧ detect_encoding_type (.pyStr "0101") = .ok "wkb-hex-ascii"
    ∧ _compute_geometry_from_geom [.pyStr "POINT (1 2)", .pyStr "0101"]
        = ([.pyStr "POINT (1 2)", .pyStr "0101"] : List PyVal).mapM
            (fun g => decode_geometry g "wkt")
    ∧ _compute_geometry_from_geom [.pyStr "POINT (1 2)", .pyStr "0101"]
        = .error .shapelyError := by
  refine ⟨by decide, by decide, ?_, by decide⟩
  exact claimC10_first_element_encoding _ (.pyStr "POINT (1 2)") [.pyStr "0101"] "wkt"
    rfl (by decide)
